import Mathlib

/-!
Verification of an embroidery design engine against its specification.

The Rust sources are shallowly embedded: machine integers become `Int`/`Nat`
(with explicit wrapping where the code wraps), `f64` coordinates become `ℚ`
where every operation stays rational and `ℝ` where the code computes square
roots or trigonometric functions, `Vec` becomes `List`, `HashMap` becomes an
association list, fallible code returns `Except`/`Option`, and a Rust panic is
modelled as `Option.none`.
-/

set_option maxRecDepth 4000

/-! ## DST 3-byte balanced-ternary encoding (`format/dst.rs`) -/

/-- Move type of a single DST 3-byte command (`format/dst.rs`, `enum MoveType`). -/
inductive MoveType where
  | Stitch
  | Jump
  | ColorChange
deriving DecidableEq, Repr

/-- Balanced-ternary digits `[d0..d4]` with weights `[1,3,9,27,81]`
(the `[i8; 5]` array of `balanced_ternary`). -/
structure BtDigits where
  d0 : Int
  d1 : Int
  d2 : Int
  d3 : Int
  d4 : Int
deriving DecidableEq, Repr

/-- One iteration of the `for digit in &mut digits` loop of `balanced_ternary`:
produces the digit and the updated value `v`.  Rust `%` is `Int.tmod` and the
divisions are exact, written with `Int.tdiv` (Rust truncated division). -/
def btStep (v : Int) : Int × Int :=
  let rem := (Int.tmod v 3 + 3) % 3
  if rem = 0 then (0, Int.tdiv v 3)
  else if rem = 1 then (1, Int.tdiv (v - 1) 3)
  else (-1, Int.tdiv (v + 1) 3)

/-- `balanced_ternary` from `format/dst.rs`: decompose a value into five
balanced-ternary digits. -/
def balanced_ternary (val : Int) : BtDigits :=
  let s0 := btStep val
  let s1 := btStep s0.2
  let s2 := btStep s1.2
  let s3 := btStep s2.2
  let s4 := btStep s3.2
  ⟨s0.1, s1.1, s2.1, s3.1, s4.1⟩

/-- Value represented by a digit quintuple. -/
def btValue (d : BtDigits) : Int :=
  d.d0 + 3 * d.d1 + 9 * d.d2 + 27 * d.d3 + 81 * d.d4

/-- All digits lie in `{-1, 0, 1}`. -/
def btSmall (d : BtDigits) : Prop :=
  d.d0.natAbs ≤ 1 ∧ d.d1.natAbs ≤ 1 ∧ d.d2.natAbs ≤ 1 ∧ d.d3.natAbs ≤ 1 ∧ d.d4.natAbs ≤ 1

instance (d : BtDigits) : Decidable (btSmall d) := by
  unfold btSmall; infer_instance

/-- The pair of conditional `|=` statements of `encode_3byte` for one digit:
contributes `pos` when the digit is positive, `neg` when negative. -/
def selBits (d : Int) (pos neg : Nat) : Nat :=
  if 0 < d then pos else if d < 0 then neg else 0

/-- `encode_3byte` from `format/dst.rs`: pack `(dx, dy, move type)` into the
three bytes `(b0, b1, b2)`; bytes are naturals below 256 built with `lor`. -/
def encode_3byte (dx dy : Int) (t : MoveType) : Nat × Nat × Nat :=
  let ctrl : Nat :=
    match t with
    | .Stitch => 0
    | .Jump => 0x80
    | .ColorChange => 0xC0
  let yd := balanced_ternary dy
  let xd := balanced_ternary dx
  let b0 := selBits yd.d0 0x80 0x40 ||| selBits yd.d2 0x20 0x10 |||
      selBits xd.d0 0x04 0x08 ||| selBits xd.d2 0x01 0x02
  let b1 := selBits yd.d1 0x80 0x40 ||| selBits yd.d3 0x20 0x10 |||
      selBits xd.d1 0x04 0x08 ||| selBits xd.d3 0x01 0x02
  let b2 := 0x03 ||| ctrl ||| selBits yd.d4 0x20 0x10 ||| selBits xd.d4 0x04 0x08
  (b0, b1, b2)

/-- One `if byte & mask != 0 { acc += w }` test of `decode_3byte`. -/
def bitVal (b : Nat) (i : Nat) (w : Int) : Int :=
  if b.testBit i then w else 0

/-- `decode_3byte` from `format/dst.rs` (the test-side decoder): recover
`(dx, dy, move type)` from the three bytes with the specified bit tests. -/
def decode_3byte (b0 b1 b2 : Nat) : Int × Int × MoveType :=
  let dy := bitVal b0 7 1 + bitVal b0 6 (-1) + bitVal b0 5 9 + bitVal b0 4 (-9)
    + bitVal b1 7 3 + bitVal b1 6 (-3) + bitVal b1 5 27 + bitVal b1 4 (-27)
    + bitVal b2 5 81 + bitVal b2 4 (-81)
  let dx := bitVal b0 2 1 + bitVal b0 3 (-1) + bitVal b0 0 9 + bitVal b0 1 (-9)
    + bitVal b1 2 3 + bitVal b1 3 (-3) + bitVal b1 0 27 + bitVal b1 1 (-27)
    + bitVal b2 2 81 + bitVal b2 3 (-81)
  let t : MoveType :=
    match b2.testBit 7, b2.testBit 6 with
    | false, false => .Stitch
    | true, false => .Jump
    | true, true => .ColorChange
    | false, true => .ColorChange
  (dx, dy, t)

/-- Correctness of the balanced-ternary decomposition on one value. -/
def btOk (v : Int) : Prop :=
  btValue (balanced_ternary v) = v ∧ btSmall (balanced_ternary v)

instance (v : Int) : Decidable (btOk v) := by
  unfold btOk; infer_instance

lemma bt_ok_all : ∀ n : Fin 243, btOk ((n : Int) - 121) := by decide

lemma bt_ok (v : Int) (h1 : -121 ≤ v) (h2 : v ≤ 121) : btOk v := by
  have hn : ((⟨(v + 121).toNat, by omega⟩ : Fin 243) : Int) - 121 = v := by
    simp only [Fin.val_mk]
    omega
  have := bt_ok_all ⟨(v + 121).toNat, by omega⟩
  rwa [hn] at this

lemma selBits_testBit (d : Int) (pos neg i : Nat) :
    (selBits d pos neg).testBit i =
      (decide (0 < d) && pos.testBit i || decide (d < 0) && neg.testBit i) := by
  unfold selBits
  rcases lt_trichotomy d 0 with h | h | h
  · have h2 : ¬0 < d := by omega
    simp [h, h2]
  · subst h
    simp
  · have h2 : ¬d < 0 := by omega
    simp [h, h2]

lemma digit_contrib (w : Int) (d : Int) (hd : d.natAbs ≤ 1) :
    ((if (decide (0 < d) : Bool) then w else 0) +
      (if (decide (d < 0) : Bool) then -w else 0)) = w * d := by
  rcases (by omega : d = -1 ∨ d = 0 ∨ d = 1) with h | h | h <;> subst h <;> simp

lemma dec_pos (d : Int) (h : d.natAbs ≤ 1) (w : Int) :
    (if 0 < d then w else 0) = w * max d 0 := by
  rcases (by omega : d = -1 ∨ d = 0 ∨ d = 1) with hd | hd | hd <;> subst hd <;> simp

lemma dec_neg (d : Int) (h : d.natAbs ≤ 1) (w : Int) :
    (if d < 0 then w else 0) = -w * min d 0 := by
  rcases (by omega : d = -1 ∨ d = 0 ∨ d = 1) with hd | hd | hd <;> subst hd <;> simp

/-- C1: for every `dx`, `dy` in `[-121, 121]` and every move type, decoding the
3-byte DST record produced by `encode_3byte` with the specified bit tests
recovers exactly `(dx, dy, move type)`. -/
theorem dst_encode_decode_roundtrip (dx dy : Int) (t : MoveType)
    (hx1 : -121 ≤ dx) (hx2 : dx ≤ 121) (hy1 : -121 ≤ dy) (hy2 : dy ≤ 121) :
    decode_3byte (encode_3byte dx dy t).1 (encode_3byte dx dy t).2.1
      (encode_3byte dx dy t).2.2 = (dx, dy, t) := by
  have hx := bt_ok dx hx1 hx2
  have hy := bt_ok dy hy1 hy2
  unfold btOk btValue btSmall at hx hy
  simp only [encode_3byte, decode_3byte, bitVal]
  obtain ⟨X, hbx⟩ : ∃ X, balanced_ternary dx = X := ⟨_, rfl⟩
  obtain ⟨Y, hby⟩ : ∃ Y, balanced_ternary dy = Y := ⟨_, rfl⟩
  rw [hbx] at hx
  rw [hby] at hy
  simp only [hbx, hby]
  obtain ⟨x0, x1, x2, x3, x4⟩ := X
  obtain ⟨y0, y1, y2, y3, y4⟩ := Y
  dsimp only at hx hy ⊢
  obtain ⟨hxv, hx0, hxd1, hxd2, hxd3, hxd4⟩ := hx
  obtain ⟨hyv, hy0, hyd1, hyd2, hyd3, hyd4⟩ := hy
  cases t <;>
    · simp only [Nat.testBit_lor, selBits_testBit]
      norm_num [Nat.testBit_to_div_mod]
      constructor
      · simp only [dec_pos x0 hx0, dec_pos x1 hxd1, dec_pos x2 hxd2, dec_pos x3 hxd3,
          dec_pos x4 hxd4, dec_neg x0 hx0, dec_neg x1 hxd1, dec_neg x2 hxd2,
          dec_neg x3 hxd3, dec_neg x4 hxd4]
        linarith [max_add_min x0 0, max_add_min x1 0, max_add_min x2 0,
          max_add_min x3 0, max_add_min x4 0]
      · simp only [dec_pos y0 hy0, dec_pos y1 hyd1, dec_pos y2 hyd2, dec_pos y3 hyd3,
          dec_pos y4 hyd4, dec_neg y0 hy0, dec_neg y1 hyd1, dec_neg y2 hyd2,
          dec_neg y3 hyd3, dec_neg y4 hyd4]
        linarith [max_add_min y0 0, max_add_min y1 0, max_add_min y2 0,
          max_add_min y3 0, max_add_min y4 0]

/-- Witness for C1 at a concrete input. -/
theorem dst_encode_decode_roundtrip_witness :
    (-121 ≤ (50 : Int) ∧ (50 : Int) ≤ 121 ∧ -121 ≤ (-30 : Int) ∧ (-30 : Int) ≤ 121) ∧
    decode_3byte (encode_3byte 50 (-30) .Jump).1 (encode_3byte 50 (-30) .Jump).2.1
      (encode_3byte 50 (-30) .Jump).2.2 = (50, -30, .Jump) :=
  ⟨⟨by decide, by decide, by decide, by decide⟩,
    dst_encode_decode_roundtrip 50 (-30) .Jump (by decide) (by decide) (by decide) (by decide)⟩

/-! ## Export data model (`format/mod.rs`)

Coordinates are `f64` millimetres in the source; every operation used by the
exporters (`* 10.0`, `round`, `min`, `max`, comparisons) is exact on rationals,
so stitch coordinates are modelled as `ℚ`. -/

/-- RGBA color (`types.rs`), each channel a `u8`. -/
structure Color where
  r : Nat
  g : Nat
  b : Nat
  a : Nat
deriving DecidableEq, Repr

/-- `ExportStitchType` from `format/mod.rs`. -/
inductive ExportStitchType where
  | Normal
  | Jump
  | Trim
  | ColorChange
  | End
deriving DecidableEq, Repr

/-- `ExportStitch` from `format/mod.rs`. -/
structure ExportStitch where
  x : ℚ
  y : ℚ
  stitch_type : ExportStitchType
deriving DecidableEq, Repr

/-- `ExportDesign` from `format/mod.rs`.  The Rust `String` name is modelled as
its UTF-8 byte sequence, which is what the byte-slicing in the exporters acts
on. -/
structure ExportDesign where
  name : List Nat
  stitches : List ExportStitch
  colors : List Color
deriving DecidableEq, Repr

/-- `f64::round` (round half away from zero). -/
def rustRound (q : ℚ) : Int :=
  if 0 ≤ q then ⌊q + 1 / 2⌋ else -⌊-q + 1 / 2⌋

/-- One `min`/`max` accumulation step of `ExportDesign::extents`. -/
def extentsStep (acc : Option (ℚ × ℚ × ℚ × ℚ)) (s : ExportStitch) :
    Option (ℚ × ℚ × ℚ × ℚ) :=
  match acc with
  | none => some (s.x, s.y, s.x, s.y)
  | some (mnx, mny, mxx, mxy) =>
      some (min mnx s.x, min mny s.y, max mxx s.x, max mxy s.y)

/-- `ExportDesign::extents`: bounding box in mm.  The `f64::INFINITY` /
`NEG_INFINITY` initial accumulators are modelled by `Option.none` (`none`
survives exactly when the stitch list is empty, which is when the source's
`min_x > max_x` test fires). -/
def extents (d : ExportDesign) : ℚ × ℚ × ℚ × ℚ :=
  match d.stitches.foldl extentsStep none with
  | none => (0, 0, 0, 0)
  | some r => r

/-- `ExportDesign::color_change_count`. -/
def color_change_count (d : ExportDesign) : Nat :=
  (d.stitches.filter (fun s => s.stitch_type = ExportStitchType.ColorChange)).length

/-- `ExportDesign::stitches_in_units`: convert mm to 0.1 mm integer units. -/
def stitches_in_units (d : ExportDesign) : List (Int × Int × ExportStitchType) :=
  d.stitches.map (fun s => (rustRound (s.x * 10), rustRound (s.y * 10), s.stitch_type))

/-! ## DST header and body (`format/dst.rs`) -/

/-- ASCII bytes of a literal. -/
def asciiBytes (s : String) : List Nat :=
  s.toList.map Char.toNat

/-- Rust `str::is_char_boundary` on the UTF-8 byte list: true at the end of the
string or on any byte that is not a continuation byte `0x80..0xBF`. -/
def isCharBoundary (name : List Nat) (i : Nat) : Bool :=
  if i = name.length then true
  else
    match name.get? i with
    | some b => decide (b < 128 ∨ 192 ≤ b)
    | none => false

/-- The label computation shared by `write_header` (dst.rs) and
`write_pec_block` (pec.rs): `if name.len() > 16 { &name[..16] } else { &name }`.
Rust byte-slicing panics when byte 16 is not a char boundary; the panic is
`none`. -/
def sliceName16 (name : List Nat) : Option (List Nat) :=
  if name.length > 16 then
    if isCharBoundary name 16 then some (name.take 16) else none
  else some name

/-- Number of UTF-8 code points of a byte list (bytes that are not
continuation bytes), as counted by Rust's formatting width. -/
def utf8CharCount (bytes : List Nat) : Nat :=
  (bytes.filter (fun b => decide (b < 128 ∨ 192 ≤ b))).length

/-- Rust `{:16}` / `{:<16}` on a string: left-justify, pad with spaces to a
minimum width of 16 characters. -/
def padTo16Chars (label : List Nat) : List Nat :=
  label ++ List.replicate (16 - utf8CharCount label) 0x20

/-- Rust `{:0width}` formatting of a nonnegative integer (`%07d` style). -/
def fmtZeroPad (width : Nat) (n : Nat) : List Nat :=
  let ds := (Nat.toDigits 10 n).map Char.toNat
  List.replicate (width - ds.length) 0x30 ++ ds

/-- Rust `{:0width}` formatting of an `i32` (sign counts toward the width). -/
def fmtZeroPadInt (width : Nat) (n : Int) : List Nat :=
  if n < 0 then 0x2D :: fmtZeroPad (width - 1) n.natAbs else fmtZeroPad width n.natAbs

/-- `HEADER_SIZE` from `format/dst.rs`. -/
def HEADER_SIZE : Nat := 512

/-- `DST_END_MARKER` from `constants.rs`. -/
def DST_END_MARKER : List Nat := [0x00, 0x00, 0xF3]

/-- `write_header` from `format/dst.rs`: the 512-byte DST header, or `none`
when the label byte-slice panics on a non-boundary byte 16. -/
def write_header (design : ExportDesign) : Option (List Nat) :=
  match sliceName16 design.name with
  | none => none
  | some label =>
    let (min_x, min_y, max_x, max_y) := extents design
    let pos_x := rustRound (max_x * 10)
    let neg_x := max (rustRound (-min_x * 10)) 0
    let pos_y := rustRound (max_y * 10)
    let neg_y := max (rustRound (-min_y * 10)) 0
    let header :=
      asciiBytes "LA:" ++ padTo16Chars label ++ [0x0D]
      ++ asciiBytes "ST:" ++ fmtZeroPad 7 design.stitches.length ++ [0x0D]
      ++ asciiBytes "CO:" ++ fmtZeroPad 3 (color_change_count design) ++ [0x0D]
      ++ asciiBytes "+X:" ++ fmtZeroPadInt 5 pos_x ++ [0x0D]
      ++ asciiBytes "-X:" ++ fmtZeroPadInt 5 neg_x ++ [0x0D]
      ++ asciiBytes "+Y:" ++ fmtZeroPadInt 5 pos_y ++ [0x0D]
      ++ asciiBytes "-Y:" ++ fmtZeroPadInt 5 neg_y ++ [0x0D]
      ++ asciiBytes "AX:+    0" ++ [0x0D] ++ asciiBytes "AY:+    0" ++ [0x0D]
      ++ asciiBytes "MX:+    0" ++ [0x0D] ++ asciiBytes "MY:+    0" ++ [0x0D]
      ++ asciiBytes "PD:******" ++ [0x0D]
    some (header ++ List.replicate (HEADER_SIZE - header.length) 0x20)

/-- The three bytes of one encoded DST command as a byte list. -/
def bytes3 (b : Nat × Nat × Nat) : List Nat :=
  [b.1, b.2.1, b.2.2]

/-- `encode_move` from `format/dst.rs`: split a move into 3-byte commands,
emitting intermediate Jump chunks clamped to `±121` until the residual fits. -/
def encode_move (dx dy : Int) (t : MoveType) : List Nat :=
  if h : 121 < dx.natAbs ∨ 121 < dy.natAbs then
    let cdx := max (-121) (min dx 121)
    let cdy := max (-121) (min dy 121)
    bytes3 (encode_3byte cdx cdy .Jump) ++ encode_move (dx - cdx) (dy - cdy) t
  else
    bytes3 (encode_3byte dx dy t)
termination_by dx.natAbs + dy.natAbs
decreasing_by
  rcases h with h | h <;> omega

/-- The per-stitch loop body of `write_body`. -/
def write_body_go (prev : Int × Int) : List (Int × Int × ExportStitchType) → List Nat
  | [] => []
  | (x, y, st) :: rest =>
    let dx := x - prev.1
    let dy := y - prev.2
    let bytes :=
      match st with
      | .Normal => encode_move dx dy .Stitch
      | .Jump => encode_move dx dy .Jump
      | .Trim =>
          bytes3 (encode_3byte 1 1 .Jump) ++ bytes3 (encode_3byte (-2) (-2) .Jump)
            ++ bytes3 (encode_3byte 1 1 .Jump) ++ encode_move dx dy .Jump
      | .ColorChange => encode_move dx dy .ColorChange
      | .End => DST_END_MARKER
    bytes ++ write_body_go (x, y) rest

/-- `write_body` from `format/dst.rs`. -/
def write_body (design : ExportDesign) : List Nat :=
  let body := write_body_go (0, 0) (stitches_in_units design)
  let needs_end :=
    match design.stitches.getLast? with
    | none => true
    | some s => decide (s.stitch_type ≠ ExportStitchType.End)
  body ++ (if needs_end then DST_END_MARKER else [])

/-- `export_dst` from `format/dst.rs`: header then body; `none` models the
label-slicing panic. -/
def export_dst (design : ExportDesign) : Option (List Nat) :=
  match write_header design with
  | none => none
  | some header => some (header ++ write_body design)

/-! ## PEC block (`format/pec.rs`) -/

/-- `PEC_COLORS` from `format/pec.rs`: the standard 65-entry PEC thread
palette (index 0 unused). -/
def PEC_COLORS : List (Nat × Nat × Nat) := [
  (0, 0, 0), (14, 31, 124), (10, 85, 163), (48, 135, 119), (75, 107, 175),
  (237, 23, 31), (209, 92, 0), (145, 54, 151), (228, 154, 203), (145, 95, 172),
  (158, 214, 125), (232, 169, 0), (254, 186, 53), (255, 255, 0), (112, 188, 31),
  (186, 152, 0), (168, 168, 168), (125, 111, 0), (255, 255, 179), (79, 85, 86),
  (0, 0, 0), (11, 61, 145), (119, 1, 118), (41, 49, 51), (42, 19, 1),
  (246, 74, 138), (178, 118, 36), (252, 187, 197), (254, 55, 15), (240, 240, 240),
  (106, 28, 138), (168, 221, 196), (37, 132, 187), (254, 179, 67), (255, 243, 107),
  (208, 166, 96), (209, 84, 0), (102, 186, 73), (19, 74, 70), (135, 135, 135),
  (216, 204, 198), (67, 86, 7), (253, 217, 222), (249, 147, 188), (0, 56, 34),
  (178, 175, 212), (104, 106, 176), (239, 227, 185), (247, 56, 102), (181, 76, 100),
  (19, 43, 26), (199, 1, 86), (254, 158, 50), (168, 222, 235), (0, 103, 62),
  (78, 41, 144), (47, 126, 32), (255, 204, 204), (255, 217, 17), (9, 91, 166),
  (240, 249, 112), (227, 243, 91), (255, 153, 0), (255, 240, 141), (255, 200, 200)]
/-- `nearest_pec_color` from `format/pec.rs`: index in `1..=64` minimizing the
squared RGB distance; ties keep the lowest index (strict `<` update). -/
def nearest_pec_color (r g b : Nat) : Nat :=
  let dist := fun (i : Nat) =>
    let c := PEC_COLORS.getD i (0, 0, 0)
    ((r : Int) - c.1) ^ 2 + ((g : Int) - c.2.1) ^ 2 + ((b : Int) - c.2.2) ^ 2
  let step := fun (best : Nat × Int) (i : Nat) =>
    if dist i < best.2 then (i, dist i) else best
  (((List.range 64).map (· + 1)).foldl step (1, 2147483647)).1

/-- `encode_pec_axis` from `format/pec.rs`: 1- or 2-byte PEC delta encoding. -/
def encode_pec_axis (val : Int) (is_jump : Bool) : List Nat :=
  if val.natAbs < 64 ∧ is_jump = false then
    if val < 0 then [(val + 128).toNat] else [val.toNat]
  else
    let v := max (-2048) (min val 2047)
    let uv := (if v < 0 then v + 4096 else v).toNat
    let high := ((uv >>> 8) &&& 0x0F ||| 0x80) ||| (if is_jump then 0x10 else 0)
    [high, uv &&& 0xFF]

/-- `encode_pec_stitch` from `format/pec.rs`. -/
def encode_pec_stitch (dx dy : Int) (is_jump : Bool) : List Nat :=
  encode_pec_axis dx is_jump ++ encode_pec_axis dy is_jump

/-- The per-stitch loop of `encode_pec_stitches`. -/
def encode_pec_go (prev : Int × Int) : List (Int × Int × ExportStitchType) → List Nat
  | [] => []
  | (x, y, st) :: rest =>
    let dx := x - prev.1
    let dy := y - prev.2
    let bytes :=
      match st with
      | .Normal => encode_pec_stitch dx dy false
      | .Jump => encode_pec_stitch dx dy true
      | .Trim => encode_pec_stitch dx dy true
      | .ColorChange =>
          [0xFE, 0xB0] ++ (if dx ≠ 0 ∨ dy ≠ 0 then encode_pec_stitch dx dy false else [])
      | .End => [0xFF]
    bytes ++ encode_pec_go (x, y) rest

/-- `encode_pec_stitches` from `format/pec.rs`. -/
def encode_pec_stitches (design : ExportDesign) : List Nat :=
  let data := encode_pec_go (0, 0) (stitches_in_units design)
  let needs_end :=
    match design.stitches.getLast? with
    | none => true
    | some s => decide (s.stitch_type ≠ ExportStitchType.End)
  data ++ (if needs_end then [0xFF] else [])

/-- `write_pec_block` from `format/pec.rs`; `none` models the label-slicing
panic on a non-boundary byte 16 of the name. -/
def write_pec_block (design : ExportDesign) : Option (List Nat) :=
  match sliceName16 design.name with
  | none => none
  | some sliced =>
    let label := padTo16Chars sliced
    let num_colors := min (color_change_count design + 1) 255
    let color_list := design.colors.map (fun c => nearest_pec_color c.r c.g c.b)
    let padding_count := num_colors - design.colors.length
    let pec0 :=
      asciiBytes "LA:" ++ label ++ [0x0D]
      ++ List.replicate 12 0x20
      ++ [num_colors - 1]
      ++ color_list ++ List.replicate padding_count 20
    let pec1 := pec0 ++ List.replicate (463 - pec0.length) 0x20
    some (pec1 ++ encode_pec_stitches design)

/-! ## PES v1 exporter (`format/pes.rs`) -/

/-- `MAX_PES_STITCH_COUNT` (`u16::MAX`). -/
def MAX_PES_STITCH_COUNT : Nat := 65535

/-- `MAX_PES_COORDINATE` (`i16::MAX as f64 / 10.0` = 3276.7 mm, exact in ℚ). -/
def MAX_PES_COORDINATE : ℚ := 32767 / 10

/-- `write_u16_le`: two little-endian bytes of a `u16` value. -/
def u16le (v : Nat) : List Nat :=
  [v % 256, v / 256 % 256]

/-- `write_s16_le`: an `i16` written `as u16` (two's-complement wrap) LE. -/
def s16le (v : Int) : List Nat :=
  u16le (v % 65536).toNat

/-- Four little-endian bytes of a `u32`. -/
def u32le (v : Nat) : List Nat :=
  [v % 256, v / 256 % 256, v / 65536 % 256, v / 16777216 % 256]

/-- `write_f32_le` for the only values written (the identity affine constants):
IEEE-754 single-precision little-endian bytes of `0.0` and `1.0`. -/
def f32le (one : Bool) : List Nat :=
  if one then [0x00, 0x00, 0x80, 0x3F] else [0x00, 0x00, 0x00, 0x00]

/-- Rust `as i16` cast of an `i32` (two's-complement wrap). -/
def toI16 (v : Int) : Int :=
  (v + 32768) % 65536 - 32768

/-- `write_cembone` from `format/pes.rs`: extents twice plus identity affine. -/
def write_cembone (design : ExportDesign) : List Nat :=
  let (min_x, min_y, max_x, max_y) := extents design
  let left := toI16 (rustRound (min_x * 10))
  let top := toI16 (rustRound (min_y * 10))
  let right := toI16 (rustRound (max_x * 10))
  let bottom := toI16 (rustRound (max_y * 10))
  s16le left ++ s16le top ++ s16le right ++ s16le bottom
  ++ s16le left ++ s16le top ++ s16le right ++ s16le bottom
  ++ f32le true ++ f32le false ++ f32le false ++ f32le true ++ f32le false ++ f32le false

/-- `DEFAULT_PEC_COLOR_BLACK` from `format/pes.rs`. -/
def DEFAULT_PEC_COLOR_BLACK : Nat := 20

/-- `write_csewseg` from `format/pes.rs`. -/
def write_csewseg (design : ExportDesign)
    (unit_stitches : List (Int × Int × ExportStitchType)) : List Nat :=
  let num_colors := max (color_change_count design + 1) 1
  u16le (num_colors % 65536)
  ++ (design.colors.enum.flatMap (fun p =>
        u16le (p.1 % 65536) ++ u16le (nearest_pec_color p.2.r p.2.g p.2.b)))
  ++ (if design.colors.isEmpty then u16le 0 ++ u16le DEFAULT_PEC_COLOR_BLACK else [])
  ++ u16le (unit_stitches.length % 65536)
  ++ unit_stitches.flatMap (fun s => s16le (toI16 s.1) ++ s16le (toI16 s.2.1))

/-- Rust `{:.1}` formatting of an `f64`, modelled on ℚ: round the scaled value
half to even to one decimal place. -/
def fmtDec1 (q : ℚ) : String :=
  let s := q * 10
  let f := ⌊s⌋
  let n : Int :=
    if s - f < 1 / 2 then f
    else if 1 / 2 < s - f then f + 1
    else if 2 ∣ f then f else f + 1
  let sign := if n < 0 ∨ (n = 0 ∧ q < 0) then "-" else ""
  sign ++ toString (n.natAbs / 10) ++ "." ++ toString (n.natAbs % 10)

/-- `export_pes` from `format/pes.rs`: validation, then header, CEmbOne,
CSewSeg and the embedded PEC block.  The PEC offset placeholder patched after
the body is written is modelled by writing the final offset directly.  `none`
models the PEC label-slicing panic. -/
def export_pes (design : ExportDesign) : Option (Except String (List Nat)) :=
  let unit_stitches := stitches_in_units design
  if MAX_PES_STITCH_COUNT < unit_stitches.length then
    some (.error ("PES format supports at most " ++ toString MAX_PES_STITCH_COUNT
      ++ " stitches, design has " ++ toString unit_stitches.length))
  else
    let (min_x, min_y, max_x, max_y) := extents design
    if min_x < -MAX_PES_COORDINATE ∨ MAX_PES_COORDINATE < max_x
        ∨ min_y < -MAX_PES_COORDINATE ∨ MAX_PES_COORDINATE < max_y then
      some (.error ("PES format coordinate range is +/-" ++ fmtDec1 MAX_PES_COORDINATE
        ++ "mm, design extents are (" ++ fmtDec1 min_x ++ ", " ++ fmtDec1 min_y
        ++ ") to (" ++ fmtDec1 max_x ++ ", " ++ fmtDec1 max_y ++ ")"))
    else
      match write_pec_block design with
      | none => none
      | some pec_block =>
        let body := u16le 1 ++ u16le 1 ++ u16le 1
          ++ write_cembone design ++ write_csewseg design unit_stitches
        let pec_offset := 12 + body.length
        some (.ok (asciiBytes "#PES0001" ++ u32le pec_offset ++ body ++ pec_block))

/-! ## C10, C5: DST header on the empty design, and the name-slicing panic -/

lemma sliceName16_length {name label : List Nat} (h : sliceName16 name = some label) :
    label.length ≤ 16 := by
  unfold sliceName16 at h
  by_cases hl : name.length > 16
  · rw [if_pos hl] at h
    by_cases hb : isCharBoundary name 16
    · rw [if_pos hb] at h
      cases h
      simp
    · rw [if_neg hb] at h
      cases h
  · rw [if_neg hl] at h
    cases h
    omega

/-- The DST header bytes expected for a design with no stitches: all counter
and extent fields are zero-formatted, then space padding to 512 bytes. -/
def dstEmptyHeader (label : List Nat) : List Nat :=
  let front := asciiBytes "LA:" ++ padTo16Chars label ++ [0x0D]
    ++ asciiBytes "ST:" ++ asciiBytes "0000000" ++ [0x0D]
    ++ asciiBytes "CO:" ++ asciiBytes "000" ++ [0x0D]
    ++ asciiBytes "+X:" ++ asciiBytes "00000" ++ [0x0D]
    ++ asciiBytes "-X:" ++ asciiBytes "00000" ++ [0x0D]
    ++ asciiBytes "+Y:" ++ asciiBytes "00000" ++ [0x0D]
    ++ asciiBytes "-Y:" ++ asciiBytes "00000" ++ [0x0D]
    ++ asciiBytes "AX:+    0" ++ [0x0D] ++ asciiBytes "AY:+    0" ++ [0x0D]
    ++ asciiBytes "MX:+    0" ++ [0x0D] ++ asciiBytes "MY:+    0" ++ [0x0D]
    ++ asciiBytes "PD:******" ++ [0x0D]
  front ++ List.replicate (HEADER_SIZE - front.length) 0x20

/-- C10 (amended): for an `ExportDesign` with an empty stitch list whose name
does not make the 16-byte label slice panic, `extents` returns `(0,0,0,0)` and
`export_dst` succeeds with exactly the 512-byte header (stitch count field
`ST:0000000`, all four extent fields `00000`) followed by the 3-byte end
marker `00 00 F3`. -/
theorem export_dst_empty_design (name : List Nat) (colors : List Color)
    (label : List Nat) (hname : sliceName16 name = some label) :
    extents ⟨name, [], colors⟩ = (0, 0, 0, 0) ∧
    export_dst ⟨name, [], colors⟩ = some (dstEmptyHeader label ++ DST_END_MARKER) ∧
    (dstEmptyHeader label).length = 512 := by
  have hlab : label.length ≤ 16 := sliceName16_length hname
  have hcc : utf8CharCount label ≤ label.length := by
    unfold utf8CharCount
    exact List.length_filter_le _ _
  have hpad : (padTo16Chars label).length ≤ 32 := by
    unfold padTo16Chars
    simp only [List.length_append, List.length_replicate]
    omega
  have e1 : rustRound ((0 : ℚ) * 10) = 0 := by norm_num [rustRound]
  have e2 : rustRound (-(0 : ℚ) * 10) = 0 := by norm_num [rustRound]
  have f7 : fmtZeroPad 7 0 = asciiBytes "0000000" := by decide
  have f3 : fmtZeroPad 3 0 = asciiBytes "000" := by decide
  have f5 : fmtZeroPadInt 5 0 = asciiBytes "00000" := by decide
  refine ⟨rfl, ?_, ?_⟩
  · unfold export_dst write_header dstEmptyHeader write_body stitches_in_units
    rw [hname]
    simp only [extents, List.foldl_nil, color_change_count, List.filter_nil,
      List.length_nil, List.map_nil, List.getLast?_nil, write_body_go,
      e1, e2, max_self, f7, f3, f5]
    simp [List.append_assoc]
  · unfold dstEmptyHeader
    have l1 : (asciiBytes "LA:").length = 3 := by decide
    have l2 : (asciiBytes "ST:").length = 3 := by decide
    have l3 : (asciiBytes "0000000").length = 7 := by decide
    have l4 : (asciiBytes "000").length = 3 := by decide
    have l5 : (asciiBytes "00000").length = 5 := by decide
    have l6 : (asciiBytes "CO:").length = 3 := by decide
    have l7 : (asciiBytes "+X:").length = 3 := by decide
    have l8 : (asciiBytes "-X:").length = 3 := by decide
    have l9 : (asciiBytes "+Y:").length = 3 := by decide
    have l10 : (asciiBytes "-Y:").length = 3 := by decide
    have l11 : (asciiBytes "AX:+    0").length = 9 := by decide
    have l12 : (asciiBytes "AY:+    0").length = 9 := by decide
    have l13 : (asciiBytes "MX:+    0").length = 9 := by decide
    have l14 : (asciiBytes "MY:+    0").length = 9 := by decide
    have l15 : (asciiBytes "PD:******").length = 9 := by decide
    simp only [List.length_append, List.length_replicate, List.length_cons,
      List.length_nil, l1, l2, l3, l4, l5, l6, l7, l8, l9, l10, l11, l12, l13,
      l14, l15, HEADER_SIZE]
    omega

/-- Witness for C10 at a concrete sliceable name. -/
theorem export_dst_empty_design_witness :
    sliceName16 (asciiBytes "test") = some (asciiBytes "test") ∧
    extents ⟨asciiBytes "test", [], []⟩ = (0, 0, 0, 0) ∧
    export_dst ⟨asciiBytes "test", [], []⟩ =
      some (dstEmptyHeader (asciiBytes "test") ++ DST_END_MARKER) ∧
    (dstEmptyHeader (asciiBytes "test")).length = 512 :=
  ⟨by decide, export_dst_empty_design (asciiBytes "test") [] (asciiBytes "test") (by decide)⟩

/-- A 17-byte name whose byte 16 falls inside the two-byte UTF-8 character
`é`: fifteen `a` bytes followed by `0xC3 0xA9`. -/
def panicName : List Nat := List.replicate 15 0x61 ++ [0xC3, 0xA9]

/-- Counterexample to C10 as stated: on an empty-stitch design whose name has
a multi-byte character straddling byte 16, `export_dst` does not succeed (the
label byte-slice `&name[..16]` panics), although the claim asserts success for
every design with an empty stitch list. -/
theorem export_dst_empty_design_cex :
    export_dst ⟨panicName, [], []⟩ = none := by decide

/-- C5: evaluation at the failing input.  The DST and PEC encoders are claimed
to never panic and to pad or truncate the name to 16 characters, but both
`write_header` (dst.rs) and `write_pec_block` (pec.rs) slice the name at byte
16 (`&design.name[..16]`), which panics (modelled as `none`) when byte 16 is
not a UTF-8 character boundary. -/
theorem dst_pec_label_slice_panics :
    write_header ⟨panicName, [⟨0, 0, .Normal⟩], [⟨0, 0, 0, 255⟩]⟩ = none ∧
    write_pec_block ⟨panicName, [⟨0, 0, .Normal⟩], [⟨0, 0, 0, 255⟩]⟩ = none ∧
    export_dst ⟨panicName, [⟨0, 0, .Normal⟩], [⟨0, 0, 0, 255⟩]⟩ = none := by
  refine ⟨?_, ?_, ?_⟩ <;> decide

/-! ## C3: PES validation -/

lemma extents_foldl_mono (l : List ExportStitch) (q : ℚ × ℚ × ℚ × ℚ) :
    ∃ r, l.foldl extentsStep (some q) = some r ∧
      r.1 ≤ q.1 ∧ r.2.1 ≤ q.2.1 ∧ q.2.2.1 ≤ r.2.2.1 ∧ q.2.2.2 ≤ r.2.2.2 := by
  induction l generalizing q with
  | nil => exact ⟨q, rfl, le_refl _, le_refl _, le_refl _, le_refl _⟩
  | cons x l ih =>
    obtain ⟨mnx, mny, mxx, mxy⟩ := q
    obtain ⟨r, hr, h1, h2, h3, h4⟩ := ih (min mnx x.x, min mny x.y, max mxx x.x, max mxy x.y)
    refine ⟨r, ?_, ?_, ?_, ?_, ?_⟩
    · simpa [extentsStep] using hr
    · exact le_trans h1 (min_le_left _ _)
    · exact le_trans h2 (min_le_left _ _)
    · exact le_trans (le_max_left _ _) h3
    · exact le_trans (le_max_left _ _) h4

lemma extents_foldl_bounds (l : List ExportStitch) (acc : Option (ℚ × ℚ × ℚ × ℚ))
    (s : ExportStitch) (hs : s ∈ l) :
    ∃ r, l.foldl extentsStep acc = some r ∧
      r.1 ≤ s.x ∧ r.2.1 ≤ s.y ∧ s.x ≤ r.2.2.1 ∧ s.y ≤ r.2.2.2 := by
  induction l generalizing acc with
  | nil => cases hs
  | cons x l ih =>
    rcases List.mem_cons.mp hs with h | h
    · subst h
      have hstep : ∃ q, extentsStep acc s = some q ∧
          q.1 ≤ s.x ∧ q.2.1 ≤ s.y ∧ s.x ≤ q.2.2.1 ∧ s.y ≤ q.2.2.2 := by
        cases acc with
        | none => exact ⟨(s.x, s.y, s.x, s.y), rfl, le_refl _, le_refl _, le_refl _, le_refl _⟩
        | some p =>
          obtain ⟨mnx, mny, mxx, mxy⟩ := p
          exact ⟨(min mnx s.x, min mny s.y, max mxx s.x, max mxy s.y), rfl,
            min_le_right _ _, min_le_right _ _, le_max_right _ _, le_max_right _ _⟩
      obtain ⟨q, hq, hq1, hq2, hq3, hq4⟩ := hstep
      obtain ⟨r, hr, h1, h2, h3, h4⟩ := extents_foldl_mono l q
      rw [List.foldl_cons, hq]
      exact ⟨r, hr, le_trans h1 hq1, le_trans h2 hq2, le_trans hq3 h3, le_trans hq4 h4⟩
    · rw [List.foldl_cons]
      exact ih (extentsStep acc x) h

lemma extents_foldl_attained (l : List ExportStitch) (q : ℚ × ℚ × ℚ × ℚ) :
    ∃ r, l.foldl extentsStep (some q) = some r ∧
      (r.1 = q.1 ∨ ∃ s ∈ l, r.1 = s.x) ∧ (r.2.1 = q.2.1 ∨ ∃ s ∈ l, r.2.1 = s.y) ∧
      (r.2.2.1 = q.2.2.1 ∨ ∃ s ∈ l, r.2.2.1 = s.x) ∧
      (r.2.2.2 = q.2.2.2 ∨ ∃ s ∈ l, r.2.2.2 = s.y) := by
  induction l generalizing q with
  | nil => exact ⟨q, rfl, Or.inl rfl, Or.inl rfl, Or.inl rfl, Or.inl rfl⟩
  | cons x l ih =>
    obtain ⟨mnx, mny, mxx, mxy⟩ := q
    obtain ⟨r, hr, h1, h2, h3, h4⟩ := ih (min mnx x.x, min mny x.y, max mxx x.x, max mxy x.y)
    refine ⟨r, by simpa [extentsStep] using hr, ?_, ?_, ?_, ?_⟩
    · rcases h1 with h | ⟨s, hs, he⟩
      · rcases min_choice mnx x.x with hm | hm
        · exact Or.inl (h.trans hm)
        · exact Or.inr ⟨x, List.mem_cons_self x l, h.trans hm⟩
      · exact Or.inr ⟨s, List.mem_cons_of_mem x hs, he⟩
    · rcases h2 with h | ⟨s, hs, he⟩
      · rcases min_choice mny x.y with hm | hm
        · exact Or.inl (h.trans hm)
        · exact Or.inr ⟨x, List.mem_cons_self x l, h.trans hm⟩
      · exact Or.inr ⟨s, List.mem_cons_of_mem x hs, he⟩
    · rcases h3 with h | ⟨s, hs, he⟩
      · rcases max_choice mxx x.x with hm | hm
        · exact Or.inl (h.trans hm)
        · exact Or.inr ⟨x, List.mem_cons_self x l, h.trans hm⟩
      · exact Or.inr ⟨s, List.mem_cons_of_mem x hs, he⟩
    · rcases h4 with h | ⟨s, hs, he⟩
      · rcases max_choice mxy x.y with hm | hm
        · exact Or.inl (h.trans hm)
        · exact Or.inr ⟨x, List.mem_cons_self x l, h.trans hm⟩
      · exact Or.inr ⟨s, List.mem_cons_of_mem x hs, he⟩

lemma stitches_in_units_length (d : ExportDesign) :
    (stitches_in_units d).length = d.stitches.length := by
  simp [stitches_in_units]

lemma extents_eq_of_mem (d : ExportDesign) (s : ExportStitch) (hs : s ∈ d.stitches) :
    (extents d).1 ≤ s.x ∧ (extents d).2.1 ≤ s.y ∧ s.x ≤ (extents d).2.2.1
      ∧ s.y ≤ (extents d).2.2.2 := by
  obtain ⟨r, hr, h1, h2, h3, h4⟩ := extents_foldl_bounds d.stitches none s hs
  unfold extents
  rw [hr]
  exact ⟨h1, h2, h3, h4⟩

lemma extents_attained (d : ExportDesign) (hne : d.stitches ≠ []) :
    (∃ s ∈ d.stitches, (extents d).1 = s.x) ∧ (∃ s ∈ d.stitches, (extents d).2.1 = s.y) ∧
    (∃ s ∈ d.stitches, (extents d).2.2.1 = s.x) ∧
    (∃ s ∈ d.stitches, (extents d).2.2.2 = s.y) := by
  obtain ⟨x, l, hl⟩ : ∃ x l, d.stitches = x :: l := by
    cases hd : d.stitches with
    | nil => exact absurd hd hne
    | cons x l => exact ⟨x, l, rfl⟩
  obtain ⟨r, hr, h1, h2, h3, h4⟩ := extents_foldl_attained l (x.x, x.y, x.x, x.y)
  have hfold : d.stitches.foldl extentsStep none = some r := by
    rw [hl, List.foldl_cons]
    exact hr
  have hext : extents d = r := by
    unfold extents
    rw [hfold]
  rw [hext, hl]
  refine ⟨?_, ?_, ?_, ?_⟩
  · rcases h1 with h | ⟨s, hs, he⟩
    · exact ⟨x, List.mem_cons_self x l, h⟩
    · exact ⟨s, List.mem_cons_of_mem x hs, he⟩
  · rcases h2 with h | ⟨s, hs, he⟩
    · exact ⟨x, List.mem_cons_self x l, h⟩
    · exact ⟨s, List.mem_cons_of_mem x hs, he⟩
  · rcases h3 with h | ⟨s, hs, he⟩
    · exact ⟨x, List.mem_cons_self x l, h⟩
    · exact ⟨s, List.mem_cons_of_mem x hs, he⟩
  · rcases h4 with h | ⟨s, hs, he⟩
    · exact ⟨x, List.mem_cons_self x l, h⟩
    · exact ⟨s, List.mem_cons_of_mem x hs, he⟩

/-- C3 (amended): `export_pes` rejects with an error and emits no bytes when
the stitch count exceeds 65535 (the message stating the limit and the actual
count) or when some stitch coordinate lies outside ±3276.7 mm; for every
other design whose name byte-slice cannot panic, it returns the encoded
file. -/
theorem export_pes_validation (d : ExportDesign) :
    (65535 < d.stitches.length →
      export_pes d = some (.error ("PES format supports at most 65535 stitches, design has "
        ++ toString d.stitches.length))) ∧
    ((∃ s ∈ d.stitches, s.x < -(32767 / 10) ∨ (32767 : ℚ) / 10 < s.x
        ∨ s.y < -(32767 / 10) ∨ (32767 : ℚ) / 10 < s.y) →
      ∃ msg, export_pes d = some (.error msg)) ∧
    (d.stitches.length ≤ 65535 →
      (∀ s ∈ d.stitches, -(32767 / 10) ≤ s.x ∧ s.x ≤ 32767 / 10
        ∧ -(32767 / 10) ≤ s.y ∧ s.y ≤ 32767 / 10) →
      (sliceName16 d.name).isSome = true →
      ∃ bytes, export_pes d = some (.ok bytes)) := by
  refine ⟨?_, ?_, ?_⟩
  · intro h
    unfold export_pes
    rw [if_pos (by rw [stitches_in_units_length]; exact h)]
    rw [stitches_in_units_length]
    rfl
  · intro ⟨s, hs, hout⟩
    unfold export_pes
    by_cases hc : MAX_PES_STITCH_COUNT < (stitches_in_units d).length
    · rw [if_pos hc]
      exact ⟨_, rfl⟩
    · rw [if_neg hc]
      obtain ⟨b1, b2, b3, b4⟩ := extents_eq_of_mem d s hs
      have hcond : (extents d).1 < -MAX_PES_COORDINATE
          ∨ MAX_PES_COORDINATE < (extents d).2.2.1
          ∨ (extents d).2.1 < -MAX_PES_COORDINATE
          ∨ MAX_PES_COORDINATE < (extents d).2.2.2 := by
        unfold MAX_PES_COORDINATE
        rcases hout with h | h | h | h
        · exact Or.inl (lt_of_le_of_lt b1 (by linarith))
        · exact Or.inr (Or.inl (lt_of_lt_of_le h b3))
        · exact Or.inr (Or.inr (Or.inl (lt_of_le_of_lt b2 (by linarith))))
        · exact Or.inr (Or.inr (Or.inr (lt_of_lt_of_le h b4)))
      obtain ⟨mnx, mny, mxx, mxy, hext⟩ : ∃ a b c e, extents d = (a, b, c, e) :=
        ⟨_, _, _, _, rfl⟩
      rw [hext]
      rw [hext] at hcond
      dsimp only
      rw [if_pos hcond]
      exact ⟨_, rfl⟩
  · intro hcount hin hname
    unfold export_pes
    rw [if_neg (by rw [stitches_in_units_length]; unfold MAX_PES_STITCH_COUNT; omega)]
    have hcond : ¬((extents d).1 < -MAX_PES_COORDINATE
        ∨ MAX_PES_COORDINATE < (extents d).2.2.1
        ∨ (extents d).2.1 < -MAX_PES_COORDINATE
        ∨ MAX_PES_COORDINATE < (extents d).2.2.2) := by
      by_cases hne : d.stitches = []
      · have : extents d = (0, 0, 0, 0) := by
          unfold extents
          rw [hne]
          rfl
        rw [this]
        unfold MAX_PES_COORDINATE
        push_neg
        norm_num
      · obtain ⟨⟨s1, hm1, he1⟩, ⟨s2, hm2, he2⟩, ⟨s3, hm3, he3⟩, ⟨s4, hm4, he4⟩⟩ :=
          extents_attained d hne
        push_neg
        unfold MAX_PES_COORDINATE
        refine ⟨?_, ?_, ?_, ?_⟩
        · rw [he1]
          have := (hin s1 hm1).1
          linarith
        · rw [he3]
          exact (hin s3 hm3).2.1
        · rw [he2]
          have := (hin s2 hm2).2.2.1
          linarith
        · rw [he4]
          exact (hin s4 hm4).2.2.2
    obtain ⟨mnx, mny, mxx, mxy, hext⟩ : ∃ a b c e, extents d = (a, b, c, e) :=
      ⟨_, _, _, _, rfl⟩
    rw [hext]
    rw [hext] at hcond
    dsimp only
    rw [if_neg hcond]
    obtain ⟨pec, hpec⟩ : ∃ pec, write_pec_block d = some pec := by
      unfold write_pec_block
      obtain ⟨label, hl⟩ := Option.isSome_iff_exists.mp hname
      rw [hl]
      exact ⟨_, rfl⟩
    rw [hpec]
    exact ⟨_, rfl⟩

/-- Witness for C3 at a concrete design (one in-range stitch, sliceable name). -/
theorem export_pes_validation_witness :
    ∃ bytes, export_pes ⟨asciiBytes "test", [⟨0, 0, .Normal⟩], [⟨0, 0, 0, 255⟩]⟩ =
      some (.ok bytes) :=
  (export_pes_validation ⟨asciiBytes "test", [⟨0, 0, .Normal⟩], [⟨0, 0, 0, 255⟩]⟩).2.2
    (by decide)
    (by
      intro s hs
      rw [List.mem_singleton] at hs
      subst hs
      refine ⟨by norm_num, by norm_num, by norm_num, by norm_num⟩)
    (by decide)

/-- Counterexample to C3 as stated: a design with a valid stitch count and
in-range coordinates for which `export_pes` still does not return the encoded
file — its name panics the PEC label slicing, so the call dies (modelled as
`none`) instead of producing bytes. -/
theorem export_pes_panics_on_valid_design :
    (⟨panicName, [⟨0, 0, .Normal⟩], []⟩ : ExportDesign).stitches.length ≤ 65535 ∧
    (∀ s ∈ (⟨panicName, [⟨0, 0, .Normal⟩], []⟩ : ExportDesign).stitches,
      -(32767 / 10) ≤ s.x ∧ s.x ≤ 32767 / 10 ∧ -(32767 / 10) ≤ s.y ∧ s.y ≤ 32767 / 10) ∧
    export_pes ⟨panicName, [⟨0, 0, .Normal⟩], []⟩ = none := by
  refine ⟨by decide, ?_, ?_⟩
  · intro s hs
    rw [List.mem_singleton] at hs
    subst hs
    refine ⟨by norm_num, by norm_num, by norm_num, by norm_num⟩
  · unfold export_pes
    rw [if_neg (by decide)]
    have hext : extents ⟨panicName, [⟨0, 0, .Normal⟩], []⟩ = (0, 0, 0, 0) := rfl
    rw [hext]
    dsimp only
    rw [if_neg (by unfold MAX_PES_COORDINATE; push_neg; norm_num)]
    have hpec : write_pec_block ⟨panicName, [⟨0, 0, .Normal⟩], []⟩ = none := by decide
    rw [hpec]

/-! ## Scene graph data model (`scene.rs`, `types.rs`, `shapes.rs`, `path.rs`)

Scene-side geometry is only stored and copied by the operations verified here,
never computed with, so its `f64` fields are modelled as `ℚ` (keeping
structural equality decidable).  `HashMap` is modelled as an association list
with unique keys; where the source iterates a map it immediately sorts with a
total key, so the list order is observationally irrelevant. -/

/-- `NodeId` (`u64`). -/
abbrev NodeId := Nat

/-- `u64::MAX`, used as the missing-metadata sort sentinel. -/
def U64_MAX : Nat := 18446744073709551615

/-- `Transform` from `scene.rs`. -/
structure Transform where
  x : ℚ
  y : ℚ
  rotation : ℚ
  scale_x : ℚ
  scale_y : ℚ
deriving DecidableEq, Repr

/-- `Transform::identity`. -/
def Transform.identity : Transform := ⟨0, 0, 0, 1, 1⟩

/-- `Point` as stored in scene paths (`types.rs`), exact-rational model. -/
structure PointQ where
  x : ℚ
  y : ℚ
deriving DecidableEq, Repr

/-- `StitchType` from `types.rs`. -/
inductive StitchType where
  | Running
  | Satin
  | Tatami
  | Spiral
  | Contour
  | Motif
deriving DecidableEq, Repr

/-- `MotifPattern` from `types.rs`. -/
inductive MotifPattern where
  | Diamond
  | Wave
  | Triangle
deriving DecidableEq, Repr

/-- `UnderlayMode` from `types.rs`. -/
inductive UnderlayMode where
  | None
  | CenterWalk
  | EdgeWalk
  | Zigzag
  | CenterEdge
  | CenterZigzag
  | EdgeZigzag
  | Full
deriving DecidableEq, Repr

/-- `CompensationMode` from `types.rs`. -/
inductive CompensationMode where
  | Off
  | Auto
  | Directional
deriving DecidableEq, Repr

/-- `StitchParams` from `types.rs`. -/
structure StitchParams where
  stitch_type : StitchType
  density : ℚ
  angle : ℚ
  underlay_mode : UnderlayMode
  underlay_spacing_mm : ℚ
  underlay_enabled : Bool
  pull_compensation : ℚ
  compensation_mode : CompensationMode
  compensation_x_mm : ℚ
  compensation_y_mm : ℚ
  fill_phase : ℚ
  contour_step_mm : ℚ
  motif_pattern : MotifPattern
  motif_scale : ℚ
deriving DecidableEq, Repr

/-- `PathCommand` from `path.rs` (`end` is a Lean keyword, spelled `endp`). -/
inductive PathCommand where
  | MoveTo (p : PointQ)
  | LineTo (p : PointQ)
  | CubicTo (c1 c2 endp : PointQ)
  | QuadTo (ctrl endp : PointQ)
  | Close
deriving DecidableEq, Repr

/-- `VectorPath` from `path.rs`. -/
structure VectorPath where
  commands : List PathCommand
  closed : Bool
deriving DecidableEq, Repr

/-- `RectShape` from `shapes.rs`. -/
structure RectShape where
  width : ℚ
  height : ℚ
  corner_radius : ℚ
deriving DecidableEq, Repr

/-- `EllipseShape` from `shapes.rs`. -/
structure EllipseShape where
  rx : ℚ
  ry : ℚ
deriving DecidableEq, Repr

/-- `PolygonShape` from `shapes.rs` (`sides` is `u32`). -/
structure PolygonShape where
  sides : Nat
  radius : ℚ
deriving DecidableEq, Repr

/-- `ShapeData` from `shapes.rs`. -/
inductive ShapeData where
  | Path (p : VectorPath)
  | Rect (r : RectShape)
  | Ellipse (e : EllipseShape)
  | Polygon (p : PolygonShape)
deriving DecidableEq, Repr

/-- `NodeKind` from `scene.rs`. -/
inductive NodeKind where
  | Layer (name : String) (visible locked : Bool)
  | Group
  | Shape (shape : ShapeData) (fill stroke : Option Color) (stroke_width : ℚ)
      (stitch : StitchParams)
deriving DecidableEq, Repr

/-- `Node` from `scene.rs`. -/
structure Node where
  id : NodeId
  name : String
  transform : Transform
  kind : NodeKind
  children : List NodeId
  parent : Option NodeId
deriving DecidableEq, Repr

/-- `EntryExitMode` from `export_pipeline.rs`. -/
inductive EntryExitMode where
  | Auto
  | PreserveShapeStart
  | UserAnchor
deriving DecidableEq, Repr

/-- `TieMode` from `export_pipeline.rs`. -/
inductive TieMode where
  | Off
  | ShapeStartEnd
  | ColorChange
deriving DecidableEq, Repr

/-- `ShapeSequencerMeta` from `scene.rs`. -/
structure ShapeSequencerMeta where
  sequencer_index : Nat
  allow_reverse_override : Option Bool
  entry_exit_override : Option EntryExitMode
  tie_mode_override : Option TieMode
deriving DecidableEq, Repr

/-- `ShapeSequencerMeta::with_index`. -/
def ShapeSequencerMeta.with_index (i : Nat) : ShapeSequencerMeta := ⟨i, none, none, none⟩

/-- `ObjectRoutingOverrides` from `scene.rs`. -/
structure ObjectRoutingOverrides where
  allow_reverse : Option Bool
  entry_exit_mode : Option EntryExitMode
  tie_mode : Option TieMode
deriving DecidableEq, Repr

/-- `EmbroideryObject` from `scene.rs`. -/
structure EmbroideryObject where
  id : NodeId
  source_node_id : NodeId
  stitch : StitchParams
  fill : Option Color
  stroke : Option Color
  stroke_width : ℚ
deriving DecidableEq, Repr

/-- `StitchBlock` from `scene.rs`. -/
structure StitchBlock where
  id : NodeId
  object_id : NodeId
  source_node_id : NodeId
  stitch_type : StitchType
  color : Option Color
  routing_overrides : ObjectRoutingOverrides
deriving DecidableEq, Repr

/-- `SequenceTrack` from `scene.rs`. -/
structure SequenceTrack where
  ordered_block_ids : List NodeId
deriving DecidableEq, Repr

/-- `Scene` from `scene.rs`. -/
structure Scene where
  nodes : List (NodeId × Node)
  root_children : List NodeId
  next_id : Nat
  shape_meta : List (NodeId × ShapeSequencerMeta)
  next_sequencer_index : Nat
  embroidery_objects : List (NodeId × EmbroideryObject)
  stitch_blocks : List (NodeId × StitchBlock)
  sequence_track : SequenceTrack
deriving DecidableEq, Repr

/-- `Scene::new`. -/
def Scene.new : Scene := ⟨[], [], 1, [], 1, [], [], ⟨[]⟩⟩

/-- Association-list model of `HashMap::get`. -/
def mapGet {α : Type} (m : List (NodeId × α)) (k : NodeId) : Option α :=
  (m.find? (fun p => p.1 == k)).map (·.2)

/-- Association-list model of `HashMap::contains_key`. -/
def mapContains {α : Type} (m : List (NodeId × α)) (k : NodeId) : Bool :=
  m.any (fun p => p.1 == k)

/-- Association-list model of `HashMap::insert` (replace or append). -/
def mapInsert {α : Type} (m : List (NodeId × α)) (k : NodeId) (v : α) :
    List (NodeId × α) :=
  if mapContains m k then m.map (fun p => if p.1 == k then (k, v) else p)
  else m ++ [(k, v)]

/-- Association-list model of `HashMap::remove` (drops the value). -/
def mapRemove {α : Type} (m : List (NodeId × α)) (k : NodeId) : List (NodeId × α) :=
  m.filter (fun p => p.1 != k)

/-- Association-list model of mutating through `HashMap::get_mut`. -/
def mapUpdate {α : Type} (m : List (NodeId × α)) (k : NodeId) (f : α → α) :
    List (NodeId × α) :=
  m.map (fun p => if p.1 == k then (p.1, f p.2) else p)

/-! ## Scene operations (`scene.rs`) -/

/-- `Scene::remove_stitch_plan_state`. -/
def remove_stitch_plan_state (s : Scene) (id : NodeId) : Scene :=
  { s with
    embroidery_objects := mapRemove s.embroidery_objects id
    stitch_blocks := mapRemove s.stitch_blocks id
    sequence_track := ⟨s.sequence_track.ordered_block_ids.filter (fun bid => bid != id)⟩ }

/-- `Scene::object_routing_overrides`. -/
def object_routing_overrides (s : Scene) (id : NodeId) : ObjectRoutingOverrides :=
  match mapGet s.shape_meta id with
  | some meta => ⟨meta.allow_reverse_override, meta.entry_exit_override, meta.tie_mode_override⟩
  | none =>
    match mapGet s.stitch_blocks id with
    | some block => block.routing_overrides
    | none => ⟨none, none, none⟩

/-- `Scene::sync_shape_stitch_plan_state`. -/
def sync_shape_stitch_plan_state (s : Scene) (id : NodeId) : Scene :=
  match mapGet s.nodes id with
  | none => remove_stitch_plan_state s id
  | some node =>
    match node.kind with
    | .Shape _ fill stroke stroke_width stitch =>
      let object : EmbroideryObject := ⟨id, id, stitch, fill, stroke, stroke_width⟩
      let s1 := { s with embroidery_objects := mapInsert s.embroidery_objects id object }
      let routing_overrides := object_routing_overrides s1 id
      let block : StitchBlock := ⟨id, id, id, stitch.stitch_type, stroke.or fill, routing_overrides⟩
      let s2 := { s1 with stitch_blocks := mapInsert s1.stitch_blocks id block }
      if s2.sequence_track.ordered_block_ids.contains id then s2
      else { s2 with sequence_track := ⟨s2.sequence_track.ordered_block_ids ++ [id]⟩ }
    | _ => remove_stitch_plan_state s id

/-- `Scene::ensure_shape_meta`. -/
def ensure_shape_meta (s : Scene) (id : NodeId) : Scene :=
  let is_shape :=
    match mapGet s.nodes id with
    | some n => match n.kind with | .Shape _ _ _ _ _ => true | _ => false
    | none => false
  if is_shape then
    match mapGet s.shape_meta id with
    | some _ => s
    | none =>
      { s with
        shape_meta := mapInsert s.shape_meta id
          (ShapeSequencerMeta.with_index s.next_sequencer_index)
        next_sequencer_index := s.next_sequencer_index + 1 }
  else
    remove_stitch_plan_state { s with shape_meta := mapRemove s.shape_meta id } id

/-- `Scene::sequencer_shape_ids`: shape node ids sorted by
`(sequencer_index or u64::MAX, id)`. -/
def sequencer_shape_ids (s : Scene) : List NodeId :=
  let ids := (s.nodes.filter (fun p =>
    match p.2.kind with | .Shape _ _ _ _ _ => true | _ => false)).map (fun p => p.2.id)
  let key := fun (id : NodeId) =>
    match mapGet s.shape_meta id with
    | some m => m.sequencer_index
    | none => U64_MAX
  ids.mergeSort (fun a b => key a < key b ∨ (key a = key b ∧ a ≤ b))

/-- `Scene::sync_sequence_track_from_shape_meta`. -/
def sync_sequence_track_from_shape_meta (s : Scene) : Scene :=
  { s with
    sequence_track :=
      ⟨(sequencer_shape_ids s).filter (fun id => mapContains s.stitch_blocks id)⟩ }

/-- `Scene::sync_all_stitch_plan_state`. -/
def sync_all_stitch_plan_state (s : Scene) : Scene :=
  let ids := s.nodes.map (·.1)
  let s1 := ids.foldl (fun acc id => sync_shape_stitch_plan_state (ensure_shape_meta acc id) id) s
  let s2 := { s1 with
    sequence_track :=
      ⟨s1.sequence_track.ordered_block_ids.filter (fun id => mapContains s1.stitch_blocks id)⟩ }
  sync_sequence_track_from_shape_meta s2

/-- `Scene::reorder_sequencer_shape`. -/
def reorder_sequencer_shape (s : Scene) (id : NodeId) (new_index : Nat) :
    Except String Unit × Scene :=
  let is_shape :=
    match mapGet s.nodes id with
    | some n => match n.kind with | .Shape _ _ _ _ _ => true | _ => false
    | none => false
  if !is_shape then (.error "not a Shape", s)
  else
    let ordered := sequencer_shape_ids s
    match ordered.indexOf? id with
    | none => (.error "not found in sequencer order", s)
    | some current_index =>
      let ordered1 := ordered.eraseIdx current_index
      let target := min new_index ordered1.length
      let ordered2 := ordered1.insertIdx target id
      let meta1 := (ordered2.enum).foldl (fun m p =>
        match mapGet m p.2 with
        | some old => mapInsert m p.2 { old with sequencer_index := p.1 + 1 }
        | none => mapInsert m p.2 (ShapeSequencerMeta.with_index (p.1 + 1))) s.shape_meta
      let s1 := { s with shape_meta := meta1, next_sequencer_index := ordered2.length + 1 }
      (.ok (), sync_sequence_track_from_shape_meta s1)

/-- `Scene::set_object_routing_overrides`. -/
def set_object_routing_overrides (s : Scene) (id : NodeId)
    (overrides : ObjectRoutingOverrides) : Except String Unit × Scene :=
  let is_shape :=
    match mapGet s.nodes id with
    | some n => match n.kind with | .Shape _ _ _ _ _ => true | _ => false
    | none => false
  if !is_shape then (.error "not a Shape", s)
  else
    let (meta0, s1) :=
      match mapGet s.shape_meta id with
      | some m => (m, s)
      | none =>
        (ShapeSequencerMeta.with_index s.next_sequencer_index,
          { s with
            shape_meta := mapInsert s.shape_meta id
              (ShapeSequencerMeta.with_index s.next_sequencer_index)
            next_sequencer_index := s.next_sequencer_index + 1 })
    let meta := { meta0 with
      allow_reverse_override := overrides.allow_reverse
      entry_exit_override := overrides.entry_exit_mode
      tie_mode_override := overrides.tie_mode }
    let s2 := { s1 with shape_meta := mapInsert s1.shape_meta id meta }
    let s3 := { s2 with
      stitch_blocks := mapUpdate s2.stitch_blocks id (fun b =>
        { b with routing_overrides :=
            ⟨meta.allow_reverse_override, meta.entry_exit_override, meta.tie_mode_override⟩ }) }
    (.ok (), s3)

/-- `Scene::restore_shape_meta`. -/
def restore_shape_meta (s : Scene) (id : NodeId) (meta : ShapeSequencerMeta) : Scene :=
  let s1 := { s with
    next_sequencer_index := max s.next_sequencer_index (meta.sequencer_index + 1)
    shape_meta := mapInsert s.shape_meta id meta }
  sync_sequence_track_from_shape_meta (sync_shape_stitch_plan_state s1 id)

/-- `Scene::add_node_with_id`. -/
def add_node_with_id (s : Scene) (id : NodeId) (name : String) (kind : NodeKind)
    (parent : Option NodeId) (transform : Transform) : Except String NodeId × Scene :=
  let parent_missing :=
    match parent with
    | some pid => !mapContains s.nodes pid
    | none => false
  if parent_missing then (.error "Parent node does not exist", s)
  else if mapContains s.nodes id then (.error "Node already exists", s)
  else
    let s1 := { s with next_id := if s.next_id ≤ id then id + 1 else s.next_id }
    let node : Node := ⟨id, name, transform, kind, [], parent⟩
    let s2 := { s1 with nodes := mapInsert s1.nodes id node }
    let s3 := sync_shape_stitch_plan_state (ensure_shape_meta s2 id) id
    let s4 :=
      match parent with
      | some pid =>
        { s3 with nodes := mapUpdate s3.nodes pid (fun p =>
            { p with children := p.children ++ [id] }) }
      | none => { s3 with root_children := s3.root_children ++ [id] }
    (.ok id, s4)

/-- `Scene::restore_node`. -/
def restore_node (s : Scene) (node : Node) : Scene :=
  let id := node.id
  let s1 := { s with next_id := if s.next_id ≤ id then id + 1 else s.next_id }
  let s2 := { s1 with nodes := mapInsert s1.nodes id node }
  sync_shape_stitch_plan_state (ensure_shape_meta s2 id) id

/-- `Scene::reattach_node`. -/
def reattach_node (s : Scene) (id : NodeId) (parent : Option NodeId) (index : Nat) :
    Except String Unit × Scene :=
  let attach :=
    match parent with
    | some pid =>
      if ¬mapContains s.nodes pid then none
      else
        some { s with nodes := mapUpdate s.nodes pid (fun p =>
          { p with children := p.children.insertIdx (min index p.children.length) id }) }
    | none =>
      some { s with root_children := s.root_children.insertIdx (min index s.root_children.length) id }
  match attach with
  | none => (.error "Parent not found", s)
  | some s1 =>
    let children :=
      match mapGet s1.nodes id with
      | some n => n.children
      | none => []
    let s2 := children.foldl (fun acc cid =>
      { acc with nodes := mapUpdate acc.nodes cid (fun c => { c with parent := some id }) }) s1
    (.ok (), s2)

/-- `Scene::remove_node`, with explicit recursion fuel standing for the call
stack (sufficient fuel is supplied at the entry point; on the acyclic scenes
the source maintains, the recursion never exhausts it). -/
def remove_node_fuel : Nat → Scene → NodeId → Except String Node × Scene
  | 0, s, _ => (.error "recursion fuel exhausted", s)
  | fuel + 1, s, id =>
    match mapGet s.nodes id with
    | none => (.error "Node does not exist", s)
    | some node =>
      let s1 := node.children.foldl (fun acc cid => (remove_node_fuel fuel acc cid).2) s
      let s2 :=
        match node.parent with
        | some pid =>
          { s1 with nodes := mapUpdate s1.nodes pid (fun p =>
              { p with children := p.children.filter (fun c => c != id) }) }
        | none => { s1 with root_children := s1.root_children.filter (fun c => c != id) }
      if mapContains s2.nodes id then
        let s3 := { s2 with nodes := mapRemove s2.nodes id, shape_meta := mapRemove s2.shape_meta id }
        (.ok node, remove_stitch_plan_state s3 id)
      else (.error "Node already removed", s2)

/-- `Scene::remove_node` entry point. -/
def remove_node (s : Scene) (id : NodeId) : Except String Node × Scene :=
  remove_node_fuel (s.nodes.length + 1) s id

/-- The parent-chain walk of `Scene::is_ancestor_of`, fuelled (the source's
`while` loop terminates on the acyclic scenes it maintains). -/
def is_ancestor_go (s : Scene) (ancestor : NodeId) : Nat → Option NodeId → Bool
  | _, none => false
  | 0, some _ => false
  | fuel + 1, some cid =>
    if cid = ancestor then true
    else is_ancestor_go s ancestor fuel ((mapGet s.nodes cid).bind (·.parent))

/-- `Scene::is_ancestor_of`. -/
def is_ancestor_of (s : Scene) (ancestor descendant : NodeId) : Bool :=
  is_ancestor_go s ancestor (s.nodes.length + 1) (some descendant)

/-- `Scene::move_node`. -/
def move_node (s : Scene) (id : NodeId) (new_parent : Option NodeId)
    (index : Option Nat) : Except String Unit × Scene :=
  if ¬mapContains s.nodes id then (.error "Node does not exist", s)
  else
    let parent_err :=
      match new_parent with
      | some pid =>
        if ¬mapContains s.nodes pid then some "New parent does not exist"
        else if is_ancestor_of s id pid then some "Cannot move a node into its own subtree"
        else none
      | none => none
    match parent_err with
    | some e => (.error e, s)
    | none =>
      let old_parent :=
        match mapGet s.nodes id with
        | some n => n.parent
        | none => none
      let s1 :=
        match old_parent with
        | some opid =>
          { s with nodes := mapUpdate s.nodes opid (fun p =>
              { p with children := p.children.filter (fun c => c != id) }) }
        | none => { s with root_children := s.root_children.filter (fun c => c != id) }
      let s2 :=
        match new_parent with
        | some npid =>
          let len :=
            match mapGet s1.nodes npid with
            | some p => p.children.length
            | none => 0
          let idx := min (index.getD len) len
          { s1 with nodes := mapUpdate s1.nodes npid (fun p =>
              { p with children := p.children.insertIdx idx id }) }
        | none =>
          let idx := min (index.getD s1.root_children.length) s1.root_children.length
          { s1 with root_children := s1.root_children.insertIdx idx id }
      let s3 := { s2 with nodes := mapUpdate s2.nodes id (fun n =>
          { n with parent := new_parent }) }
      (.ok (), s3)

/-- `Scene::reorder_child`. -/
def reorder_child (s : Scene) (id : NodeId) (new_index : Nat) :
    Except String Unit × Scene :=
  match mapGet s.nodes id with
  | none => (.error "Node does not exist", s)
  | some node =>
    let siblings :=
      match node.parent with
      | some pid =>
        match mapGet s.nodes pid with
        | some p => p.children
        | none => []
      | none => s.root_children
    match siblings.indexOf? id with
    | none => (.error "Node not found in siblings list", s)
    | some current_index =>
      let removed := siblings.eraseIdx current_index
      let idx := min new_index removed.length
      let updated := removed.insertIdx idx id
      let s1 :=
        match node.parent with
        | some pid =>
          { s with nodes := mapUpdate s.nodes pid (fun p => { p with children := updated }) }
        | none => { s with root_children := updated }
      (.ok (), s1)

/-! ## Command journal (`command.rs`) -/

/-- `SceneCommand` from `command.rs`. -/
inductive SceneCommand where
  | AddNode (id : NodeId) (name : String) (kind : NodeKind) (parent : Option NodeId)
      (transform : Transform)
  | RemoveNode (snapshot : List (Node × Option ShapeSequencerMeta)) (parent : Option NodeId)
      (index : Nat)
  | UpdateTransform (id : NodeId) (old new : Transform)
  | UpdateKind (id : NodeId) (old new : NodeKind)
  | MoveNode (id : NodeId) (old_parent : Option NodeId) (old_index : Nat)
      (new_parent : Option NodeId) (new_index : Nat)
  | ReorderChild (id : NodeId) (old_index new_index : Nat)
  | ReorderSequencer (id : NodeId) (old_index new_index : Nat)
  | SetObjectRoutingOverrides (id : NodeId) (old new : ObjectRoutingOverrides)
  | SetPathCommands (id : NodeId) (old_commands : List PathCommand) (old_closed : Bool)
      (new_commands : List PathCommand) (new_closed : Bool)
  | Rename (id : NodeId) (old_name new_name : String)
  | SetFill (id : NodeId) (old new : Option Color)
  | SetStroke (id : NodeId) (old new : Option Color)
  | SetStrokeWidth (id : NodeId) (old new : ℚ)
deriving DecidableEq, Repr

/-- `restore_snapshot` from `command.rs`. -/
def restore_snapshot (s : Scene) (snapshot : List (Node × Option ShapeSequencerMeta))
    (parent : Option NodeId) (index : Nat) : Except String Unit × Scene :=
  let s1 := snapshot.foldl (fun acc snap =>
    let acc1 := restore_node acc snap.1
    match snap.2 with
    | some meta => restore_shape_meta acc1 snap.1.id meta
    | none => acc1) s
  match snapshot.head? with
  | some first =>
    match reattach_node s1 first.1.id parent index with
    | (.error e, s2) => (.error e, s2)
    | (.ok _, s2) => (.ok (), sync_all_stitch_plan_state s2)
  | none => (.ok (), sync_all_stitch_plan_state s1)

/-- A `get_node_mut`-style update used by several `apply_command` arms: fails
without mutation when the node is missing or `f` rejects its kind. -/
def update_node_checked (s : Scene) (id : NodeId) (f : Node → Option Node)
    (err : String) : Except String Unit × Scene :=
  match mapGet s.nodes id with
  | none => (.error "Node not found", s)
  | some node =>
    match f node with
    | none => (.error err, s)
    | some node1 => (.ok (), { s with nodes := mapInsert s.nodes id node1 })

/-- `apply_command` from `command.rs` (forward when `reverse = false`). -/
def apply_command (s : Scene) (cmd : SceneCommand) (reverse : Bool) :
    Except String Unit × Scene :=
  match cmd with
  | .AddNode id name kind parent transform =>
    if reverse then
      match remove_node s id with
      | (.error e, s1) => (.error e, s1)
      | (.ok _, s1) => (.ok (), s1)
    else
      match add_node_with_id s id name kind parent transform with
      | (.error e, s1) => (.error e, s1)
      | (.ok _, s1) => (.ok (), s1)
  | .RemoveNode snapshot parent index =>
    if reverse then restore_snapshot s snapshot parent index
    else
      match snapshot.head? with
      | some first =>
        match remove_node s first.1.id with
        | (.error e, s1) => (.error e, s1)
        | (.ok _, s1) => (.ok (), s1)
      | none => (.ok (), s)
  | .UpdateTransform id oldT newT =>
    let t := if reverse then oldT else newT
    update_node_checked s id (fun n => some { n with transform := t }) ""
  | .UpdateKind id oldK newK =>
    let k := if reverse then oldK else newK
    match update_node_checked s id (fun n => some { n with kind := k }) "" with
    | (.error e, s1) => (.error e, s1)
    | (.ok _, s1) => (.ok (), sync_shape_stitch_plan_state s1 id)
  | .MoveNode id old_parent old_index new_parent new_index =>
    if reverse then move_node s id old_parent (some old_index)
    else move_node s id new_parent (some new_index)
  | .ReorderChild id old_index new_index =>
    reorder_child s id (if reverse then old_index else new_index)
  | .ReorderSequencer id old_index new_index =>
    reorder_sequencer_shape s id (if reverse then old_index else new_index)
  | .SetObjectRoutingOverrides id oldO newO =>
    set_object_routing_overrides s id (if reverse then oldO else newO)
  | .SetPathCommands id old_commands old_closed new_commands new_closed =>
    let cmds := if reverse then old_commands else new_commands
    let closed := if reverse then old_closed else new_closed
    match update_node_checked s id (fun n =>
      match n.kind with
      | .Shape (.Path _) fill stroke sw st =>
        some { n with kind := .Shape (.Path ⟨cmds, closed⟩) fill stroke sw st }
      | _ => none) "Node is not a Path shape" with
    | (.error e, s1) => (.error e, s1)
    | (.ok _, s1) => (.ok (), sync_shape_stitch_plan_state s1 id)
  | .Rename id old_name new_name =>
    let n := if reverse then old_name else new_name
    update_node_checked s id (fun node => some { node with name := n }) ""
  | .SetFill id oldF newF =>
    let fill := if reverse then oldF else newF
    match update_node_checked s id (fun n =>
      match n.kind with
      | .Shape shape _ stroke sw st => some { n with kind := .Shape shape fill stroke sw st }
      | _ => none) "Node is not a Shape" with
    | (.error e, s1) => (.error e, s1)
    | (.ok _, s1) => (.ok (), sync_shape_stitch_plan_state s1 id)
  | .SetStroke id oldS newS =>
    let stroke := if reverse then oldS else newS
    match update_node_checked s id (fun n =>
      match n.kind with
      | .Shape shape fill _ sw st => some { n with kind := .Shape shape fill stroke sw st }
      | _ => none) "Node is not a Shape" with
    | (.error e, s1) => (.error e, s1)
    | (.ok _, s1) => (.ok (), sync_shape_stitch_plan_state s1 id)
  | .SetStrokeWidth id oldW newW =>
    let sw := if reverse then oldW else newW
    match update_node_checked s id (fun n =>
      match n.kind with
      | .Shape shape fill stroke _ st => some { n with kind := .Shape shape fill stroke sw st }
      | _ => none) "Node is not a Shape" with
    | (.error e, s1) => (.error e, s1)
    | (.ok _, s1) => (.ok (), sync_shape_stitch_plan_state s1 id)

/-- `CommandHistory` from `command.rs`. -/
structure CommandHistory where
  undo_stack : List SceneCommand
  redo_stack : List SceneCommand
  max_history : Nat
deriving Repr

/-- `CommandHistory::new`. -/
def CommandHistory.new (max_history : Nat) : CommandHistory := ⟨[], [], max_history⟩

/-- `CommandHistory::execute`: apply forward, push to undo, clear redo, trim. -/
def CommandHistory.execute (h : CommandHistory) (s : Scene) (cmd : SceneCommand) :
    Except String Unit × CommandHistory × Scene :=
  match apply_command s cmd false with
  | (.error e, s1) => (.error e, h, s1)
  | (.ok _, s1) =>
    let undo1 := h.undo_stack ++ [cmd]
    let undo2 := if h.max_history < undo1.length then undo1.drop 1 else undo1
    (.ok (), ⟨undo2, [], h.max_history⟩, s1)

/-- `CommandHistory::undo`: pop, apply reverse, push to redo. -/
def CommandHistory.undo (h : CommandHistory) (s : Scene) :
    Except String Bool × CommandHistory × Scene :=
  match h.undo_stack.getLast? with
  | none => (.ok false, h, s)
  | some cmd =>
    let h1 := { h with undo_stack := h.undo_stack.dropLast }
    match apply_command s cmd true with
    | (.error e, s1) => (.error e, h1, s1)
    | (.ok _, s1) => (.ok true, { h1 with redo_stack := h1.redo_stack ++ [cmd] }, s1)

deriving instance DecidableEq for Except

/-! ## C2: undo does not restore the sequence track -/

/-- Stitch parameters for the C2 failing input (integral values). -/
def demoParams : StitchParams :=
  ⟨.Running, 1, 0, .None, 2, false, 0, .Auto, 0, 0, 0, 1, .Diamond, 1⟩

/-- A shape node kind used by the C2 failing input. -/
def demoKind : NodeKind :=
  .Shape (.Rect ⟨5, 5, 0⟩) none (some ⟨255, 0, 0, 255⟩) 1 demoParams

/-- The C2 failing scene: two shape nodes added at root, so the sequence
track is `[1, 2]`. -/
def demoScene : Scene :=
  (add_node_with_id (add_node_with_id Scene.new 1 "A" demoKind none Transform.identity).2
    2 "B" demoKind none Transform.identity).2

/-- The C2 failing command: change node 1 from a Shape to a Group, recording
the accurate before and after kinds. -/
def demoCmd : SceneCommand := .UpdateKind 1 demoKind NodeKind.Group

/-- C2: evaluation at the failing input.  Executing `UpdateKind` (Shape →
Group) and undoing it restores the nodes, children order, kinds, transforms
and shape_meta, but not the sequence track: undo re-appends the block id at
the end, turning `[1, 2]` into `[2, 1]`, so the final scene is not
structurally equal to the original, contradicting the undo round-trip
invariant. -/
theorem undo_update_kind_breaks_sequence_track :
    (CommandHistory.execute (CommandHistory.new 200) demoScene demoCmd).1 = .ok () ∧
    (CommandHistory.undo
        (CommandHistory.execute (CommandHistory.new 200) demoScene demoCmd).2.1
        (CommandHistory.execute (CommandHistory.new 200) demoScene demoCmd).2.2).1 = .ok true ∧
    (CommandHistory.undo
        (CommandHistory.execute (CommandHistory.new 200) demoScene demoCmd).2.1
        (CommandHistory.execute (CommandHistory.new 200) demoScene demoCmd).2.2).2.2.nodes
      = demoScene.nodes ∧
    (CommandHistory.undo
        (CommandHistory.execute (CommandHistory.new 200) demoScene demoCmd).2.1
        (CommandHistory.execute (CommandHistory.new 200) demoScene demoCmd).2.2).2.2.shape_meta
      = demoScene.shape_meta ∧
    demoScene.sequence_track.ordered_block_ids = [1, 2] ∧
    (CommandHistory.undo
        (CommandHistory.execute (CommandHistory.new 200) demoScene demoCmd).2.1
        (CommandHistory.execute (CommandHistory.new 200) demoScene demoCmd).2.2
      ).2.2.sequence_track.ordered_block_ids = [2, 1] := by
  refine ⟨?_, ?_, ?_, ?_, ?_, ?_⟩ <;> decide

/-! ## C8: moving a node into its own subtree fails and leaves the scene
unchanged -/

/-- C8: for every scene and node, calling `move_node` with a new parent that
is the node itself or one of its descendants (`is_ancestor_of id pid`, the
source's cycle check, which is true exactly when `pid` is reached from `id`
by the parent chain, including `pid = id`) returns an error and returns the
scene completely unchanged. -/
theorem move_node_into_descendant_errors (s : Scene) (id pid : NodeId)
    (idx : Option Nat) (h : is_ancestor_of s id pid = true) :
    ∃ e, move_node s id (some pid) idx = (.error e, s) := by
  unfold move_node
  by_cases hc : mapContains s.nodes id
  · rw [if_neg (by simp [hc])]
    by_cases hp : mapContains s.nodes pid
    · simp only [hp, h]
      exact ⟨_, rfl⟩
    · simp only [hp]
      exact ⟨_, rfl⟩
  · rw [if_pos (by simp [hc])]
    exact ⟨_, rfl⟩

/-- A scene with node 2 a child of node 1 (both groups), for the C8 witness. -/
def nestedScene : Scene :=
  (add_node_with_id (add_node_with_id Scene.new 1 "parent" NodeKind.Group none
    Transform.identity).2 2 "child" NodeKind.Group (some 1) Transform.identity).2

/-- Witness for C8: moving node 1 under its own child 2 errors and leaves the
scene unchanged. -/
theorem move_node_into_descendant_errors_witness :
    is_ancestor_of nestedScene 1 2 = true ∧
    ∃ e, move_node nestedScene 1 (some 2) none = (.error e, nestedScene) :=
  ⟨by decide, move_node_into_descendant_errors nestedScene 1 2 none (by decide)⟩

/-! ## C6: effective pull compensation (`export_pipeline.rs`)

The stored `f64` parameters are exact rationals; the trigonometry is computed
in `ℝ`. -/

open Real in
/-- `effective_pull_compensation` from `export_pipeline.rs`
(`angle.to_radians()` is `angle * (π / 180)`). -/
noncomputable def effective_pull_compensation (stitch : StitchParams) : ℝ :=
  match stitch.compensation_mode with
  | .Off => 0
  | .Auto => max (stitch.pull_compensation : ℝ) 0
  | .Directional =>
    let angle_rad : ℝ := (stitch.angle : ℝ) * (Real.pi / 180)
    let dir := |Real.cos angle_rad| * max (stitch.compensation_x_mm : ℝ) 0
      + |Real.sin angle_rad| * max (stitch.compensation_y_mm : ℝ) 0
    max ((stitch.pull_compensation : ℝ) + dir) 0

/-- The pull-compensation resolution exactly as claim C6 states it:
`Directional → pull + |cos θ|·compensation_x + |sin θ|·compensation_y`
clamped to be ≥ 0, with no per-axis clamping. -/
noncomputable def claimPullCompensation (stitch : StitchParams) : ℝ :=
  if stitch.compensation_mode = .Off then 0
  else if stitch.compensation_mode = .Auto then max (stitch.pull_compensation : ℝ) 0
  else
    let θ : ℝ := (stitch.angle : ℝ) * (Real.pi / 180)
    max ((stitch.pull_compensation : ℝ)
      + |Real.cos θ| * (stitch.compensation_x_mm : ℝ)
      + |Real.sin θ| * (stitch.compensation_y_mm : ℝ)) 0

/-- The pull-compensation resolution as amended: the per-axis compensations
are clamped to ≥ 0 before being combined.  Written from the spec sentence,
in if-chain style. -/
noncomputable def specPullCompensation (stitch : StitchParams) : ℝ :=
  if stitch.compensation_mode = .Off then 0
  else if stitch.compensation_mode = .Auto then max (stitch.pull_compensation : ℝ) 0
  else
    let θ : ℝ := (stitch.angle : ℝ) * (Real.pi / 180)
    max ((stitch.pull_compensation : ℝ)
      + |Real.cos θ| * max (stitch.compensation_x_mm : ℝ) 0
      + |Real.sin θ| * max (stitch.compensation_y_mm : ℝ) 0) 0

/-- The C6 counterexample stitch parameters: Directional mode, angle 0°,
pull 5, x-compensation −1, y-compensation 0. -/
def cexStitch : StitchParams :=
  ⟨.Satin, 1, 0, .None, 2, false, 5, .Directional, -1, 0, 0, 1, .Diamond, 1⟩

/-- Counterexample to C6 as stated: at angle 0 with a negative x-compensation
the code clamps the per-axis term to 0 and yields 5, while the claim's
formula yields 4. -/
theorem effective_pull_compensation_cex :
    effective_pull_compensation cexStitch = 5 ∧ claimPullCompensation cexStitch = 4 := by
  constructor
  · unfold effective_pull_compensation cexStitch
    norm_num
  · unfold claimPullCompensation cexStitch
    norm_num
    simp

/-- C6 (amended): for every `StitchParams`, the effective pull compensation
resolves as: Off gives 0; Auto gives `max(pull, 0)`; Directional gives
`pull + |cos θ|·max(compensation_x, 0) + |sin θ|·max(compensation_y, 0)`
clamped to be ≥ 0, with θ the stitch angle in radians. -/
theorem effective_pull_compensation_spec (stitch : StitchParams) :
    effective_pull_compensation stitch = specPullCompensation stitch := by
  unfold effective_pull_compensation specPullCompensation
  cases h : stitch.compensation_mode <;> simp [h, add_assoc]

/-! ## Real-valued geometry (`types.rs`, `stitch/running.rs`)

The stitch generators compute square roots and trigonometric functions, so
their `f64` values are modelled as `ℝ` (the usual idealisation); decimal
literals such as `1e-9` stand for the corresponding exact decimals. -/

/-- `Point` as used by the stitch generators (ℝ model of `types.rs`). -/
structure Point where
  x : ℝ
  y : ℝ

/-- `Stitch` from `types.rs`. -/
structure Stitch where
  position : Point
  is_jump : Bool
  is_trim : Bool

/-- `f64::EPSILON` (2⁻⁵²). -/
noncomputable def F64_EPSILON : ℝ := 1 / 2 ^ (52 : ℕ)

/-- `distance` from `stitch/running.rs` (and its clones elsewhere). -/
noncomputable def distance (a b : Point) : ℝ :=
  Real.sqrt ((b.x - a.x) * (b.x - a.x) + (b.y - a.y) * (b.y - a.y))

/-- `is_same_point` from `stitch/running.rs`: 1e-9 box tolerance. -/
noncomputable def is_same_point (a b : Point) : Bool :=
  decide (|a.x - b.x| ≤ 1e-9 ∧ |a.y - b.y| ≤ 1e-9)

/-- `dedupe_consecutive` from `stitch/running.rs`. -/
noncomputable def dedupe_consecutive (points : List Point) : List Point :=
  points.foldl (fun out p =>
    match out.getLast? with
    | some last => if is_same_point last p then out else out ++ [p]
    | none => out ++ [p]) []

/-- The body of the corner-splitting loop of `split_path_to_curves`:
state is `(curves, start, seg_len)`. -/
noncomputable def split_step (points : List Point) (min_curve_len : ℝ)
    (st : List (List Point) × Nat × ℝ) (i : Nat) : List (List Point) × Nat × ℝ :=
  let (curves, start, seg_len) := st
  let pm := points.getD (i - 1) ⟨0, 0⟩
  let pi := points.getD i ⟨0, 0⟩
  let pn := points.getD (i + 1) ⟨0, 0⟩
  let a := (pi.x - pm.x, pi.y - pm.y)
  let b := (pn.x - pi.x, pn.y - pi.y)
  let a_norm2 := a.1 * a.1 + a.2 * a.2
  let b_norm2 := b.1 * b.1 + b.2 * b.2
  let dot_abs := |a.1 * b.1 + a.2 * b.2|
  let sharp_turn := decide (F64_EPSILON < a_norm2) && decide (F64_EPSILON < b_norm2)
    && decide (dot_abs * dot_abs ≤ 0.12 * a_norm2 * b_norm2)
  let (curves1, start1, seg_len1) :=
    if sharp_turn && decide (min_curve_len ≤ seg_len) then
      (curves ++ [(points.drop start).take (i - start + 1)], i, (0 : ℝ))
    else (curves, start, seg_len)
  (curves1, start1, seg_len1 + distance pi pn)

/-- `split_path_to_curves` from `stitch/running.rs`. -/
noncomputable def split_path_to_curves (points : List Point) (min_curve_len : ℝ) :
    List (List Point) :=
  if points.length < 3 then [points]
  else
    let init : List (List Point) × Nat × ℝ :=
      ([], 0, distance (points.getD 0 ⟨0, 0⟩) (points.getD 1 ⟨0, 0⟩))
    let (curves, start, _) :=
      (List.range' 1 (points.length - 2)).foldl (split_step points min_curve_len) init
    curves ++ [points.drop start]

/-- `polyline_length` from `stitch/running.rs`. -/
noncomputable def polyline_length (points : List Point) : ℝ :=
  ((points.zip points.tail).map (fun pr => distance pr.1 pr.2)).sum

/-- The segment walk of `sample_along_polyline`. -/
noncomputable def sample_go (target : ℝ) :
    List (Point × Point) → ℝ → Point → Point
  | [], _, fallback => fallback
  | (p0, p1) :: rest, traversed, fallback =>
    let seg_len := distance p0 p1
    if seg_len ≤ F64_EPSILON then sample_go target rest traversed fallback
    else
      let next := traversed + seg_len
      if target ≤ next + 1e-9 then
        let t := min (max ((target - traversed) / seg_len) 0) 1
        ⟨p0.x + (p1.x - p0.x) * t, p0.y + (p1.y - p0.y) * t⟩
      else sample_go target rest next fallback

/-- `sample_along_polyline` from `stitch/running.rs`. -/
noncomputable def sample_along_polyline (points : List Point) (target : ℝ) : Point :=
  sample_go target (points.zip points.tail) 0 (points.getLastD ⟨0, 0⟩)

/-- `stitch_curve_evenly` from `stitch/running.rs`. -/
noncomputable def stitch_curve_evenly (points : List Point) (stitch_length : ℝ) :
    List Point :=
  if points.length < 2 then []
  else
    let total := polyline_length points
    if total ≤ F64_EPSILON then []
    else
      let segment_count := (max ⌈total / stitch_length⌉ 1).toNat
      let effective_step := total / segment_count
      (List.range segment_count).map (fun k =>
        sample_along_polyline points ((k + 1 : ℕ) * effective_step))

/-- `generate_running_stitches` from `stitch/running.rs`. -/
noncomputable def generate_running_stitches (points : List Point) (stitch_length : ℝ) :
    List Stitch :=
  if points.length < 2 ∨ stitch_length ≤ 0 then []
  else
    let clean := dedupe_consecutive points
    if clean.length < 2 then []
    else
      let tolerance := min (max (stitch_length * 0.2) 0.05) 1
      let curves := split_path_to_curves clean (tolerance * 2)
      let out_points := curves.foldl (fun out curve =>
        let stitched := stitch_curve_evenly curve stitch_length
        let stitched1 :=
          match out.getLast? with
          | some last => stitched.filter (fun p => !is_same_point p last)
          | none => stitched
        out ++ stitched1) [clean.headD ⟨0, 0⟩]
      let final_point := clean.getLastD ⟨0, 0⟩
      let out2 :=
        match out_points.getLast? with
        | some p => if is_same_point p final_point then out_points else out_points ++ [final_point]
        | none => out_points ++ [final_point]
      out2.map (fun position => ⟨position, false, false⟩)

/-! ## Spiral fill (`stitch/fill.rs`) and C9 -/

/-- `DEFAULT_STITCH_DENSITY` from `constants.rs`. -/
noncomputable def DEFAULT_STITCH_DENSITY : ℝ := 0.45

/-- `DEFAULT_STITCH_LENGTH` from `constants.rs`. -/
noncomputable def DEFAULT_STITCH_LENGTH : ℝ := 2.5

/-- `MIN_TATAMI_DENSITY` from `constants.rs`. -/
noncomputable def MIN_TATAMI_DENSITY : ℝ := 0.1

/-- `TWO_PI` from `stitch/fill.rs`. -/
noncomputable def TWO_PI : ℝ := Real.pi * 2

/-- `normalize_density` from `stitch/fill.rs`. -/
noncomputable def normalize_density (density : ℝ) : ℝ :=
  if density ≤ 0 then DEFAULT_STITCH_DENSITY else max density MIN_TATAMI_DENSITY

/-- `signed_area` from `stitch/fill.rs` (shoelace over consecutive pairs). -/
noncomputable def signed_area (ring : List Point) : ℝ :=
  ((ring.zip ring.tail).map (fun pr => pr.1.x * pr.2.y - pr.2.x * pr.1.y)).sum

/-- `centroid` from `stitch/fill.rs`. -/
noncomputable def centroid (points : List Point) : Point :=
  if points.isEmpty then ⟨0, 0⟩
  else
    ⟨(points.map (·.x)).sum / points.length, (points.map (·.y)).sum / points.length⟩

/-- `point_in_ring` from `stitch/fill.rs`: even-odd ray casting. -/
noncomputable def point_in_ring (p : Point) (ring : List Point) : Bool :=
  if ring.length < 3 then false
  else
    (ring.zip ring.tail).foldl (fun inside pr =>
      let a := pr.1
      let b := pr.2
      let intersects := decide (p.y < a.y) != decide (p.y < b.y)
      if intersects then
        let x_intersect := a.x + (p.y - a.y) * (b.x - a.x) / (b.y - a.y)
        if p.x < x_intersect then !inside else inside
      else inside) false

/-- `point_in_rings` from `stitch/fill.rs`: parity across all rings. -/
noncomputable def point_in_rings (p : Point) (rings : List (List Point)) : Bool :=
  rings.foldl (fun inside ring => if point_in_ring p ring then !inside else inside) false

/-- Rust `Vec::swap_remove i`: replace index `i` by the last element and pop. -/
def swapRemove {α : Type} [Inhabited α] (l : List α) (i : Nat) : α × List α :=
  (l.getD i default, (l.set i (l.getLastD default)).dropLast)

/-- `normalize_closed_rings` from `stitch/fill.rs`: close each ring, drop
degenerate ones, put the largest-|area| ring first (CCW), then the remaining
rings by descending |area| (Rust `max_by` keeps the last maximum; `sort_by`
is stable). -/
noncomputable def normalize_closed_rings (rings : List (List Point)) :
    List (List Point) :=
  let normalized : List (List Point × ℝ) := rings.foldl (fun acc ring =>
    if ring.length < 3 then acc
    else
      let r :=
        if 1e-6 < distance (ring.getD 0 ⟨0, 0⟩) (ring.getD (ring.length - 1) ⟨0, 0⟩) then
          ring ++ [ring.getD 0 ⟨0, 0⟩]
        else ring
      if r.length < 4 then acc
      else
        let area := signed_area r
        if |area| ≤ 1e-6 then acc else acc ++ [(r, area)]) []
  if normalized.isEmpty then []
  else
    haveI : Inhabited (List Point × ℝ) := ⟨([], 0)⟩
    let outer_index := (normalized.enum.foldl (fun best p =>
      if decide (|(normalized.getD best ([], 0)).2| ≤ |p.2.2|) then p.1 else best) 0)
    let (outerPair, rest) := swapRemove normalized outer_index
    let outer := if outerPair.2 < 0 then outerPair.1.reverse else outerPair.1
    let restSorted := rest.mergeSort (fun a b => decide (|b.2| ≤ |a.2|))
    outer :: restSorted.map (·.1)

/-- One pass of the spiral point-generation `while` loop of
`generate_spiral_fill`; the `guard < 25_000` counter is the recursion fuel.
Returns the collected points, the remaining fuel and the final `theta`. -/
noncomputable def spiral_loop (center : Point) (spacing stitch_length phase_rad : ℝ)
    (max_radius : ℝ) (closed_rings : List (List Point)) :
    Nat → ℝ → List Point → List Point × Nat × ℝ
  | 0, theta, pts => (pts, 0, theta)
  | fuel + 1, theta, pts =>
    let progress := (theta - phase_rad) / TWO_PI
    let radius := progress * spacing
    if max_radius + spacing < radius then (pts, fuel + 1, theta)
    else
      let p : Point := ⟨center.x + radius * Real.cos theta,
        center.y + radius * Real.sin theta⟩
      let pts1 := if point_in_rings p closed_rings then pts ++ [p] else pts
      let step_theta := min (max (stitch_length / max radius 0.5) 0.1) 0.7
      spiral_loop center spacing stitch_length phase_rad max_radius closed_rings
        fuel (theta + step_theta) pts1

/-- `generate_spiral_fill` from `stitch/fill.rs`. -/
noncomputable def generate_spiral_fill (rings : List (List Point))
    (density stitch_length phase : ℝ) : List Stitch :=
  let spacing := max (normalize_density density) 0.2
  let stitch_length := if stitch_length ≤ 0 then DEFAULT_STITCH_LENGTH else stitch_length
  let closed_rings := normalize_closed_rings rings
  if closed_rings.isEmpty then []
  else
    let outer := closed_rings.headD []
    let center := centroid outer
    let max_radius := (outer.map (fun p => distance p center)).foldl max 0
    if max_radius ≤ F64_EPSILON then []
    else
      let phase_rad := phase * (Real.pi / 180)
      let (points, _, _) := spiral_loop center spacing stitch_length phase_rad
        max_radius closed_rings 25000 phase_rad []
      if points.length < 2 then [] else generate_running_stitches points stitch_length

/-- Number of iterations the spiral loop performs from a given fuel. -/
noncomputable def spiral_iterations (center : Point)
    (spacing stitch_length phase_rad max_radius : ℝ) (closed_rings : List (List Point))
    (fuel : Nat) (theta : ℝ) (pts : List Point) : Nat :=
  fuel - (spiral_loop center spacing stitch_length phase_rad max_radius closed_rings
    fuel theta pts).2.1

lemma spiral_loop_fuel_le (center : Point) (spacing stitch_length phase_rad : ℝ)
    (max_radius : ℝ) (closed_rings : List (List Point)) :
    ∀ (fuel : Nat) (theta : ℝ) (pts : List Point),
      (spiral_loop center spacing stitch_length phase_rad max_radius closed_rings
        fuel theta pts).2.1 ≤ fuel ∧
      (0 < (spiral_loop center spacing stitch_length phase_rad max_radius closed_rings
          fuel theta pts).2.1 →
        max_radius + spacing <
          ((spiral_loop center spacing stitch_length phase_rad max_radius closed_rings
            fuel theta pts).2.2 - phase_rad) / TWO_PI * spacing) := by
  intro fuel
  induction fuel with
  | zero =>
    intro theta pts
    exact ⟨le_refl _, fun h => absurd h (by simp [spiral_loop])⟩
  | succ n ih =>
    intro theta pts
    unfold spiral_loop
    by_cases hbr : max_radius + spacing < (theta - phase_rad) / TWO_PI * spacing
    · rw [if_pos hbr]
      exact ⟨le_refl _, fun _ => hbr⟩
    · rw [if_neg hbr]
      obtain ⟨h1, h2⟩ := ih (theta + min (max (stitch_length / max ((theta - phase_rad) / TWO_PI * spacing) 0.5) 0.1) 0.7)
        (if point_in_rings ⟨center.x + (theta - phase_rad) / TWO_PI * spacing * Real.cos theta,
          center.y + (theta - phase_rad) / TWO_PI * spacing * Real.sin theta⟩ closed_rings
          then pts ++ [⟨center.x + (theta - phase_rad) / TWO_PI * spacing * Real.cos theta,
            center.y + (theta - phase_rad) / TWO_PI * spacing * Real.sin theta⟩] else pts)
      exact ⟨le_trans h1 (Nat.le_succ n), h2⟩

/-- C9: the spiral point-generation loop of `generate_spiral_fill` executes
at most 25,000 iterations on every input, and when it stops with the guard
not exhausted it is because the spiral radius exceeded the outer ring's
maximum radius plus one spacing; the function (given the fuelled loop) is
total. -/
theorem generate_spiral_fill_loop_bounded (center : Point)
    (spacing stitch_length phase_rad max_radius : ℝ)
    (closed_rings : List (List Point)) (theta : ℝ) (pts : List Point) :
    spiral_iterations center spacing stitch_length phase_rad max_radius closed_rings
      25000 theta pts ≤ 25000 ∧
    ((spiral_loop center spacing stitch_length phase_rad max_radius closed_rings
        25000 theta pts).2.1 = 0 ∨
      max_radius + spacing <
        ((spiral_loop center spacing stitch_length phase_rad max_radius closed_rings
          25000 theta pts).2.2 - phase_rad) / TWO_PI * spacing) := by
  obtain ⟨h1, h2⟩ := spiral_loop_fuel_le center spacing stitch_length phase_rad
    max_radius closed_rings 25000 theta pts
  refine ⟨Nat.sub_le _ _, ?_⟩
  rcases Nat.eq_zero_or_pos (spiral_loop center spacing stitch_length phase_rad
    max_radius closed_rings 25000 theta pts).2.1 with h | h
  · exact Or.inl h
  · exact Or.inr (h2 h)

/-! ## Running stitch generation as specified (C4)

The spec describes `generate_running_stitches` curve-by-curve: each split
curve of total length `T` is stitched as exactly `N = ⌈T/L⌉` (at least 1)
samples taken at the cumulative distances `k·T/N`, `k = 1..N`.  The claim
further says that only a curve's *first* sample is dropped (when it equals
the point last emitted) and that the output always ends *exactly* at the
last input point.  `runningClaim` below transcribes that claim; the amended
description `runningSpecAmended` differs in the two corrected spots (all
matching samples are dropped, and the final point is appended only when the
last emitted point is not within the same-point tolerance of it). -/

/-- The sampled points the spec prescribes for one curve: `N = max ⌈T/L⌉ 1`
points at cumulative distances `k·(T/N)`. -/
noncomputable def specCurveSamples (curve : List Point) (L : ℝ) : List Point :=
  let total := polyline_length curve
  let segment_count := (max ⌈total / L⌉ 1).toNat
  let effective_step := total / segment_count
  (List.range segment_count).map (fun k =>
    sample_along_polyline curve ((k + 1 : ℕ) * effective_step))

/-- The running-stitch generator exactly as the claim words it: per-curve
spec samples, only the first sample of a curve dropped when it equals the
last emitted point, and the output forced to end exactly at the last input
point. -/
noncomputable def runningClaim (points : List Point) (L : ℝ) : List Stitch :=
  if points.length < 2 ∨ L ≤ 0 then []
  else
    let clean := dedupe_consecutive points
    if clean.length < 2 then []
    else
      let tolerance := min (max (L * 0.2) 0.05) 1
      let curves := split_path_to_curves clean (tolerance * 2)
      let out_points := curves.foldl (fun out curve =>
        let stitched := specCurveSamples curve L
        let stitched1 :=
          match stitched with
          | [] => []
          | p :: rest =>
            if is_same_point p (out.getLastD ⟨0, 0⟩) then rest else p :: rest
        out ++ stitched1) [clean.headD ⟨0, 0⟩]
      let final_point := clean.getLastD ⟨0, 0⟩
      let out2 :=
        if (out_points.getLastD ⟨0, 0⟩).x = final_point.x ∧
            (out_points.getLastD ⟨0, 0⟩).y = final_point.y then out_points
        else out_points ++ [final_point]
      out2.map (fun position => ⟨position, false, false⟩)

/-- The amended per-curve concatenation: every sample within the same-point
tolerance of the point last emitted before the curve is dropped, and the
final input point is appended only when the last emitted point is not within
the same-point tolerance of it. -/
noncomputable def runningSpecAmended (points : List Point) (L : ℝ) : List Stitch :=
  if points.length < 2 ∨ L ≤ 0 then []
  else
    let clean := dedupe_consecutive points
    if clean.length < 2 then []
    else
      let tolerance := min (max (L * 0.2) 0.05) 1
      let curves := split_path_to_curves clean (tolerance * 2)
      let out_points := curves.foldl (fun out curve =>
        out ++ (specCurveSamples curve L).filter
          (fun p => !is_same_point p (out.getLastD ⟨0, 0⟩))) [clean.headD ⟨0, 0⟩]
      let final_point := clean.getLastD ⟨0, 0⟩
      let out2 :=
        if is_same_point (out_points.getLastD ⟨0, 0⟩) final_point then out_points
        else out_points ++ [final_point]
      out2.map (fun position => ⟨position, false, false⟩)

/-- Consecutive pairs of a polyline (recursive form of `l.zip l.tail`). -/
def pairsOf : List Point → List (Point × Point)
  | a :: b :: t => (a, b) :: pairsOf (b :: t)
  | _ => []

lemma pairsOf_eq_zip : ∀ l : List Point, pairsOf l = l.zip l.tail
  | [] => rfl
  | [_] => rfl
  | _ :: b :: t => by rw [pairsOf, pairsOf_eq_zip (b :: t)]; rfl

/-- No two consecutive points of the polyline are within tolerance. -/
def consecDistinct (l : List Point) : Prop :=
  ∀ pr ∈ pairsOf l, is_same_point pr.1 pr.2 = false

/-- `c` is a contiguous slice of `l`. -/
def IsSlice (l c : List Point) : Prop := ∃ s k, c = (l.drop s).take k

lemma pairsOf_tail_subset : ∀ (t : List Point) (a : Point),
    pairsOf t ⊆ pairsOf (a :: t)
  | [], _ => by simp [pairsOf]
  | _ :: _, _ => fun x hx => List.mem_cons_of_mem _ hx

lemma pairsOf_take_subset : ∀ (l : List Point) (k : Nat),
    pairsOf (l.take k) ⊆ pairsOf l
  | [], k => by simp
  | _ :: _, 0 => by simp [pairsOf]
  | [_], _ + 1 => by simp [pairsOf]
  | a :: b :: t, 1 => by
    intro x hx
    simp [pairsOf] at hx
  | a :: b :: t, (k + 1) + 1 => by
    intro x hx
    rw [List.take_succ_cons, List.take_succ_cons] at hx
    rw [show pairsOf (a :: b :: t.take k) = (a, b) :: pairsOf (b :: t.take k) from rfl]
      at hx
    rcases List.mem_cons.mp hx with rfl | hx
    · exact List.mem_cons_self _ _
    · rw [show b :: t.take k = (b :: t).take (k + 1) from (List.take_succ_cons ..).symm]
        at hx
      exact List.mem_cons_of_mem _ (pairsOf_take_subset (b :: t) (k + 1) hx)

lemma pairsOf_drop_subset : ∀ (l : List Point) (s : Nat),
    pairsOf (l.drop s) ⊆ pairsOf l
  | _, 0 => by simp
  | [], _ + 1 => by simp
  | a :: t, s + 1 => by
    intro x hx
    exact pairsOf_tail_subset t a (pairsOf_drop_subset t s hx)

lemma IsSlice.pairs_subset {l c : List Point} (h : IsSlice l c) :
    pairsOf c ⊆ pairsOf l := by
  obtain ⟨s, k, rfl⟩ := h
  exact fun x hx =>
    pairsOf_drop_subset l s (pairsOf_take_subset (l.drop s) k hx)

lemma pairsOf_concat : ∀ (l : List Point) (last p : Point),
    l.getLast? = some last → pairsOf (l ++ [p]) = pairsOf l ++ [(last, p)]
  | [], last, p, h => by simp at h
  | [a], last, p, h => by
    simp only [List.getLast?_singleton, Option.some.injEq] at h
    subst h
    rfl
  | a :: b :: t, last, p, h => by
    rw [List.getLast?_cons_cons] at h
    show (a, b) :: pairsOf (b :: t ++ [p]) = ((a, b) :: pairsOf (b :: t)) ++ [(last, p)]
    rw [pairsOf_concat (b :: t) last p h]
    rfl

lemma consecDistinct_concat {l : List Point} {p : Point}
    (hl : consecDistinct l)
    (hp : ∀ last, l.getLast? = some last → is_same_point last p = false) :
    consecDistinct (l ++ [p]) := by
  cases h : l.getLast? with
  | none =>
    rw [List.getLast?_eq_none_iff] at h
    subst h
    intro pr hpr
    simp [pairsOf] at hpr
  | some last =>
    intro pr hpr
    rw [pairsOf_concat l last p h] at hpr
    rcases List.mem_append.mp hpr with hpr | hpr
    · exact hl pr hpr
    · rw [List.mem_singleton] at hpr
      subst hpr
      exact hp last h

lemma dedupe_fold_distinct : ∀ (pts out : List Point), consecDistinct out →
    consecDistinct (pts.foldl (fun out p =>
      match out.getLast? with
      | some last => if is_same_point last p then out else out ++ [p]
      | none => out ++ [p]) out)
  | [], out, h => h
  | p :: pts, out, h => by
    rw [List.foldl_cons]
    refine dedupe_fold_distinct pts _ ?_
    cases hl : out.getLast? with
    | none =>
      rw [List.getLast?_eq_none_iff] at hl
      subst hl
      intro pr hpr
      simp [pairsOf] at hpr
    | some last =>
      by_cases hs : is_same_point last p
      · simpa [hl, hs] using h
      · simp only [hl, hs, Bool.false_eq_true, if_false]
        refine consecDistinct_concat h ?_
        intro last' hlast'
        rw [hl] at hlast'
        cases hlast'
        exact Bool.not_eq_true _ ▸ (by simpa using hs)

lemma dedupe_consecDistinct (pts : List Point) :
    consecDistinct (dedupe_consecutive pts) := by
  unfold dedupe_consecutive
  exact dedupe_fold_distinct pts [] (by intro pr hpr; simp [pairsOf] at hpr)

lemma split_step_start (points : List Point) (m : ℝ)
    (st : List (List Point) × Nat × ℝ) (i : Nat) :
    (split_step points m st i).2.1 = st.2.1 ∨ (split_step points m st i).2.1 = i := by
  obtain ⟨curves, start, seg⟩ := st
  unfold split_step
  dsimp only
  split
  · right; rfl
  · left; rfl

lemma split_step_curves (points : List Point) (m : ℝ)
    (st : List (List Point) × Nat × ℝ) (i : Nat)
    (hst : ∀ c ∈ st.1, 2 ≤ c.length ∧ IsSlice points c)
    (hsi : st.2.1 < i) (hi : i + 2 ≤ points.length) :
    ∀ c ∈ (split_step points m st i).1, 2 ≤ c.length ∧ IsSlice points c := by
  obtain ⟨curves, start, seg⟩ := st
  unfold split_step
  dsimp only
  dsimp only at hst hsi
  split
  · intro c hc
    rcases List.mem_append.mp hc with hc | hc
    · exact hst c hc
    · rw [List.mem_singleton] at hc
      subst hc
      constructor
      · rw [List.length_take, List.length_drop]
        omega
      · exact ⟨start, i - start + 1, rfl⟩
  · exact hst

lemma split_fold_start (points : List Point) (m : ℝ) :
    ∀ (l : List Nat) (st : List (List Point) × Nat × ℝ),
    (l.foldl (split_step points m) st).2.1 = st.2.1 ∨
      (l.foldl (split_step points m) st).2.1 ∈ l
  | [], st => Or.inl rfl
  | i :: rest, st => by
    rw [List.foldl_cons]
    rcases split_fold_start points m rest (split_step points m st i) with h | h
    · rw [h]
      rcases split_step_start points m st i with h' | h'
      · exact Or.inl h'
      · rw [h']
        exact Or.inr (List.mem_cons_self _ _)
    · exact Or.inr (List.mem_cons_of_mem _ h)

lemma split_fold_curves (points : List Point) (m : ℝ) :
    ∀ (l : List Nat) (st : List (List Point) × Nat × ℝ),
    l.Pairwise (· < ·) →
    (∀ c ∈ st.1, 2 ≤ c.length ∧ IsSlice points c) →
    (∀ i ∈ l, st.2.1 < i) →
    (∀ i ∈ l, i + 2 ≤ points.length) →
    ∀ c ∈ (l.foldl (split_step points m) st).1, 2 ≤ c.length ∧ IsSlice points c
  | [], st, _, hst, _, _ => hst
  | i :: rest, st, hpw, hst, hlt, hrange => by
    rw [List.foldl_cons]
    have hpw' := List.pairwise_cons.mp hpw
    refine split_fold_curves points m rest (split_step points m st i) hpw'.2
      (split_step_curves points m st i hst (hlt i (List.mem_cons_self _ _))
        (hrange i (List.mem_cons_self _ _))) ?_
      (fun j hj => hrange j (List.mem_cons_of_mem _ hj))
    intro j hj
    rcases split_step_start points m st i with h | h
    · rw [h]; exact hlt j (List.mem_cons_of_mem _ hj)
    · rw [h]; exact hpw'.1 j hj

lemma split_path_curves (clean : List Point) (m : ℝ) (h2 : 2 ≤ clean.length) :
    ∀ c ∈ split_path_to_curves clean m, 2 ≤ c.length ∧ IsSlice clean c := by
  unfold split_path_to_curves
  by_cases h3 : clean.length < 3
  · rw [if_pos h3]
    intro c hc
    rw [List.mem_singleton] at hc
    rw [hc]
    exact ⟨h2, 0, clean.length, by simp⟩
  · rw [if_neg h3]
    dsimp only
    obtain ⟨⟨curves, start, seg⟩, hr⟩ :
        ∃ x, (List.range' 1 (clean.length - 2)).foldl (split_step clean m)
          ([], 0, distance (clean.getD 0 ⟨0, 0⟩) (clean.getD 1 ⟨0, 0⟩)) = x := ⟨_, rfl⟩
    rw [hr]
    dsimp only
    have hstart : start ≤ clean.length - 2 := by
      have := split_fold_start clean m (List.range' 1 (clean.length - 2))
        ([], 0, distance (clean.getD 0 ⟨0, 0⟩) (clean.getD 1 ⟨0, 0⟩))
      rw [hr] at this
      rcases this with h | h
      · simp only [] at h; omega
      · simp only [] at h; rw [List.mem_range'_1] at h; omega
    intro c hc
    rcases List.mem_append.mp hc with hc | hc
    · have := split_fold_curves clean m (List.range' 1 (clean.length - 2))
        ([], 0, distance (clean.getD 0 ⟨0, 0⟩) (clean.getD 1 ⟨0, 0⟩))
        (List.pairwise_lt_range' 1 (clean.length - 2))
        (by intro c hc; simp at hc)
        (by intro i hi; rw [List.mem_range'_1] at hi; show 0 < i; omega)
        (by intro i hi; rw [List.mem_range'_1] at hi; omega)
        c
      rw [hr] at this
      exact this hc
    · rw [List.mem_singleton] at hc
      subst hc
      constructor
      · rw [List.length_drop]; omega
      · exact ⟨start, clean.length - start,
          (List.take_of_length_le (by rw [List.length_drop])).symm⟩

lemma not_same_point_dist {p q : Point} (h : is_same_point p q = false) :
    F64_EPSILON < distance p q := by
  unfold is_same_point at h
  rw [decide_eq_false_iff_not] at h
  push_neg at h
  unfold distance F64_EPSILON
  rw [show (q.x - p.x) * (q.x - p.x) + (q.y - p.y) * (q.y - p.y)
      = (q.x - p.x) ^ 2 + (q.y - p.y) ^ 2 from by ring]
  rw [Real.lt_sqrt (by positivity)]
  rcases le_or_lt (|p.x - q.x|) (1e-9) with hx | hx
  · have hy := h hx
    have h1 : (1e-9 : ℝ) * 1e-9 < |p.y - q.y| * |p.y - q.y| :=
      mul_self_lt_mul_self (by norm_num) hy
    rw [abs_mul_abs_self] at h1
    have h2 : ((1 : ℝ) / 2 ^ 52) ^ 2 < 1e-9 * 1e-9 := by norm_num
    nlinarith [sq_nonneg (q.x - p.x), sq_nonneg (p.y - q.y - (q.y - p.y))]
  · have h1 : (1e-9 : ℝ) * 1e-9 < |p.x - q.x| * |p.x - q.x| :=
      mul_self_lt_mul_self (by norm_num) hx
    rw [abs_mul_abs_self] at h1
    have h2 : ((1 : ℝ) / 2 ^ 52) ^ 2 < 1e-9 * 1e-9 := by norm_num
    nlinarith [sq_nonneg (q.y - p.y), sq_nonneg (p.x - q.x - (q.x - p.x))]

lemma curve_length_pos {clean c : List Point} (hcd : consecDistinct clean)
    (hc2 : 2 ≤ c.length) (hsub : pairsOf c ⊆ pairsOf clean) :
    F64_EPSILON < polyline_length c := by
  match c, hc2 with
  | p :: q :: rest, _ =>
    have hmem : (p, q) ∈ pairsOf clean := hsub (List.mem_cons_self _ _)
    have hd := not_same_point_dist (hcd (p, q) hmem)
    have hsum : (0 : ℝ) ≤ polyline_length (q :: rest) := by
      refine List.sum_nonneg ?_
      intro x hx
      rcases List.mem_map.mp hx with ⟨pr, _, rfl⟩
      exact Real.sqrt_nonneg _
    have heq : polyline_length (p :: q :: rest)
        = distance p q + polyline_length (q :: rest) := by
      unfold polyline_length
      rw [show (p :: q :: rest).zip (p :: q :: rest).tail
          = (p, q) :: (q :: rest).zip rest from rfl]
      rw [show ((q :: rest).zip (q :: rest).tail) = (q :: rest).zip rest from rfl]
      rw [List.map_cons, List.sum_cons]
    rw [heq]
    linarith

lemma stitch_curve_evenly_eq_spec {c : List Point} {L : ℝ} (h2 : 2 ≤ c.length)
    (hT : F64_EPSILON < polyline_length c) :
    stitch_curve_evenly c L = specCurveSamples c L := by
  unfold stitch_curve_evenly specCurveSamples
  rw [if_neg (by omega), if_neg (not_le.mpr hT)]

lemma running_fold_ne_nil (L : ℝ) : ∀ (curves : List (List Point)) (out : List Point),
    out ≠ [] →
    curves.foldl (fun out curve =>
      out ++ (specCurveSamples curve L).filter
        (fun p => !is_same_point p (out.getLastD ⟨0, 0⟩))) out ≠ []
  | [], out, h => h
  | c :: rest, out, h => by
    rw [List.foldl_cons]
    refine running_fold_ne_nil L rest _ ?_
    intro hcontra
    rcases List.append_eq_nil.mp hcontra with ⟨h1, _⟩
    exact h h1

lemma running_fold_eq (L : ℝ) : ∀ (curves : List (List Point)) (out : List Point),
    out ≠ [] →
    (∀ c ∈ curves, stitch_curve_evenly c L = specCurveSamples c L) →
    curves.foldl (fun out curve =>
      let stitched := stitch_curve_evenly curve L
      let stitched1 :=
        match out.getLast? with
        | some last => stitched.filter (fun p => !is_same_point p last)
        | none => stitched
      out ++ stitched1) out
    = curves.foldl (fun out curve =>
      out ++ (specCurveSamples curve L).filter
        (fun p => !is_same_point p (out.getLastD ⟨0, 0⟩))) out
  | [], out, _, _ => rfl
  | c :: rest, out, hne, heq => by
    rw [List.foldl_cons, List.foldl_cons]
    obtain ⟨last, hlast⟩ := Option.isSome_iff_exists.mp (List.getLast?_isSome.mpr hne)
    have hlastD : out.getLastD ⟨0, 0⟩ = last := by
      rw [List.getLastD_eq_getLast?, hlast]; rfl
    have hbody : (let stitched := stitch_curve_evenly c L
        let stitched1 :=
          match out.getLast? with
          | some last => stitched.filter (fun p => !is_same_point p last)
          | none => stitched
        out ++ stitched1)
        = out ++ (specCurveSamples c L).filter
          (fun p => !is_same_point p (out.getLastD ⟨0, 0⟩)) := by
      rw [heq c (List.mem_cons_self _ _)] at *
      rw [hlast, hlastD]
    rw [hbody]
    refine running_fold_eq L rest _ ?_ (fun c hc => heq c (List.mem_cons_of_mem _ hc))
    intro hcontra
    rcases List.append_eq_nil.mp hcontra with ⟨h1, _⟩
    exact hne h1

/-- C4 (amended): `generate_running_stitches` agrees with the spec-level
description `runningSpecAmended` on every input: per split curve it emits the
`N = max ⌈T/L⌉ 1` samples at cumulative distances `k·(T/N)`, drops every
sample within the same-point tolerance of the point last emitted before the
curve, and appends the final input point only when the last emitted point is
not within the same-point tolerance of it; all stitches have `is_jump` and
`is_trim` false. -/
theorem generate_running_stitches_spec (points : List Point) (L : ℝ) :
    generate_running_stitches points L = runningSpecAmended points L := by
  unfold generate_running_stitches runningSpecAmended
  by_cases h1 : points.length < 2 ∨ L ≤ 0
  · rw [if_pos h1, if_pos h1]
  · rw [if_neg h1, if_neg h1]
    dsimp only
    by_cases h2 : (dedupe_consecutive points).length < 2
    · rw [if_pos h2, if_pos h2]
    · rw [if_neg h2, if_neg h2]
      have hcd := dedupe_consecDistinct points
      have hcurves : ∀ c ∈ split_path_to_curves (dedupe_consecutive points)
          (min (max (L * 0.2) 0.05) 1 * 2),
          stitch_curve_evenly c L = specCurveSamples c L := by
        intro c hc
        obtain ⟨hlen, hslice⟩ := split_path_curves (dedupe_consecutive points)
          (min (max (L * 0.2) 0.05) 1 * 2) (by omega) c hc
        exact stitch_curve_evenly_eq_spec hlen
          (curve_length_pos hcd hlen hslice.pairs_subset)
      rw [running_fold_eq L _ _ (List.cons_ne_nil _ _) hcurves]
      have hne := running_fold_ne_nil L (split_path_to_curves (dedupe_consecutive points)
        (min (max (L * 0.2) 0.05) 1 * 2)) [(dedupe_consecutive points).headD ⟨0, 0⟩]
        (List.cons_ne_nil _ _)
      obtain ⟨last, hlast⟩ := Option.isSome_iff_exists.mp (List.getLast?_isSome.mpr hne)
      have hlastD : (((split_path_to_curves (dedupe_consecutive points)
          (min (max (L * 0.2) 0.05) 1 * 2)).foldl (fun out curve =>
            out ++ (specCurveSamples curve L).filter
              (fun p => !is_same_point p (out.getLastD ⟨0, 0⟩)))
          [(dedupe_consecutive points).headD ⟨0, 0⟩]).getLastD ⟨0, 0⟩) = last := by
        rw [List.getLastD_eq_getLast?, hlast]; rfl
      rw [hlast, hlastD]

/-- The counterexample path for C4: out-and-back along the x-axis, then a
sharp turn down.  The second curve's sampling revisits the point `(0,0)`
already emitted, so the retain-all filter drops a point the claim keeps. -/
noncomputable def cex4Path : List Point := [⟨0, 0⟩, ⟨1, 0⟩, ⟨0, 0⟩, ⟨0, -1⟩]

lemma cex4_s_ab : is_same_point ⟨0, 0⟩ ⟨1, 0⟩ = false := by
  unfold is_same_point; norm_num

lemma cex4_s_ba : is_same_point ⟨1, 0⟩ ⟨0, 0⟩ = false := by
  unfold is_same_point; norm_num

lemma cex4_s_ad : is_same_point ⟨0, 0⟩ ⟨0, -1⟩ = false := by
  unfold is_same_point; norm_num

lemma cex4_s_da : is_same_point ⟨0, -1⟩ ⟨0, 0⟩ = false := by
  unfold is_same_point; norm_num

lemma cex4_s_db : is_same_point ⟨0, -1⟩ ⟨1, 0⟩ = false := by
  unfold is_same_point; norm_num

lemma cex4_s_aa : is_same_point ⟨0, 0⟩ ⟨0, 0⟩ = true := by
  unfold is_same_point; norm_num

lemma cex4_s_dd : is_same_point ⟨0, -1⟩ ⟨0, -1⟩ = true := by
  unfold is_same_point; norm_num

lemma cex4_d_ab : distance ⟨0, 0⟩ ⟨1, 0⟩ = 1 := by
  unfold distance; norm_num [Real.sqrt_one]

lemma cex4_d_ba : distance ⟨1, 0⟩ ⟨0, 0⟩ = 1 := by
  unfold distance; norm_num [Real.sqrt_one]

lemma cex4_d_ad : distance ⟨0, 0⟩ ⟨0, -1⟩ = 1 := by
  unfold distance; norm_num [Real.sqrt_one]

lemma cex4_dedupe : dedupe_consecutive cex4Path = cex4Path := by
  unfold dedupe_consecutive cex4Path
  simp [cex4_s_ab, cex4_s_ba, cex4_s_ad]

lemma cex4_split (m : ℝ) (hm : m ≤ 2) :
    split_path_to_curves cex4Path m
      = [[⟨0, 0⟩, ⟨1, 0⟩, ⟨0, 0⟩], [⟨0, 0⟩, ⟨0, -1⟩]] := by
  unfold split_path_to_curves
  rw [if_neg (by norm_num [cex4Path])]
  norm_num [cex4Path, split_step, List.getD, F64_EPSILON, List.range',
    cex4_d_ab, cex4_d_ba, cex4_d_ad, Real.sqrt_one, hm]

lemma cex4_len1 : polyline_length [⟨0, 0⟩, ⟨1, 0⟩, ⟨0, 0⟩] = 2 := by
  unfold polyline_length
  norm_num [cex4_d_ab, cex4_d_ba]

lemma cex4_len2 : polyline_length [⟨0, 0⟩, ⟨0, -1⟩] = 1 := by
  unfold polyline_length
  norm_num [cex4_d_ad]

lemma cex4_sample1_1 : sample_along_polyline [⟨0, 0⟩, ⟨1, 0⟩, ⟨0, 0⟩] 1 = ⟨1, 0⟩ := by
  unfold sample_along_polyline
  norm_num [sample_go, cex4_d_ab, F64_EPSILON, Point.mk.injEq]

lemma cex4_sample1_2 : sample_along_polyline [⟨0, 0⟩, ⟨1, 0⟩, ⟨0, 0⟩] 2 = ⟨0, 0⟩ := by
  unfold sample_along_polyline
  norm_num [sample_go, cex4_d_ab, cex4_d_ba, F64_EPSILON, Point.mk.injEq]

lemma cex4_sample2_1 : sample_along_polyline [⟨0, 0⟩, ⟨0, -1⟩] 1 = ⟨0, -1⟩ := by
  unfold sample_along_polyline
  norm_num [sample_go, cex4_d_ad, F64_EPSILON, Point.mk.injEq]

lemma cex4_curve1 : stitch_curve_evenly [⟨0, 0⟩, ⟨1, 0⟩, ⟨0, 0⟩] (1 : ℝ)
    = [⟨1, 0⟩, ⟨0, 0⟩] := by
  unfold stitch_curve_evenly
  norm_num [cex4_len1, F64_EPSILON, show Int.toNat 2 = 2 from rfl, List.range_succ,
    cex4_sample1_1, cex4_sample1_2]

lemma cex4_curve2 : stitch_curve_evenly [⟨0, 0⟩, ⟨0, -1⟩] (1 : ℝ) = [⟨0, -1⟩] := by
  unfold stitch_curve_evenly
  norm_num [cex4_len2, F64_EPSILON, show Int.toNat 1 = 1 from rfl, List.range_succ,
    cex4_sample2_1]

lemma cex4_spec1 : specCurveSamples [⟨0, 0⟩, ⟨1, 0⟩, ⟨0, 0⟩] (1 : ℝ)
    = [⟨1, 0⟩, ⟨0, 0⟩] := by
  rw [← stitch_curve_evenly_eq_spec (by norm_num)
    (by rw [cex4_len1]; norm_num [F64_EPSILON])]
  exact cex4_curve1

lemma cex4_spec2 : specCurveSamples [⟨0, 0⟩, ⟨0, -1⟩] (1 : ℝ) = [⟨0, -1⟩] := by
  rw [← stitch_curve_evenly_eq_spec (by norm_num)
    (by rw [cex4_len2]; norm_num [F64_EPSILON])]
  exact cex4_curve2

/-- Counterexample to C4 as stated: on the path `(0,0) → (1,0) → (0,0) →
(0,-1)` with stitch length 1, the code emits 3 stitches — the second curve's
sample at `(0,0)` (not the curve's first sample, and equal to a point emitted
long before the last one) is removed by `retain` — whereas the claim's
curve-by-curve description (drop only a curve's *first* sample and only when
it equals the last emitted point) yields 4 stitches. -/
theorem generate_running_stitches_cex :
    generate_running_stitches cex4Path 1
      = [⟨⟨0, 0⟩, false, false⟩, ⟨⟨1, 0⟩, false, false⟩, ⟨⟨0, -1⟩, false, false⟩] ∧
    runningClaim cex4Path 1
      = [⟨⟨0, 0⟩, false, false⟩, ⟨⟨1, 0⟩, false, false⟩, ⟨⟨0, 0⟩, false, false⟩,
          ⟨⟨0, -1⟩, false, false⟩] := by
  have hlen : cex4Path.length = 4 := by norm_num [cex4Path]
  constructor
  · unfold generate_running_stitches
    rw [if_neg (by rw [hlen]; norm_num), cex4_dedupe]
    rw [if_neg (by rw [hlen]; norm_num)]
    dsimp only
    rw [cex4_split _ (by norm_num)]
    rw [show cex4Path.headD ⟨0, 0⟩ = ⟨0, 0⟩ from rfl,
      show cex4Path.getLastD ⟨0, 0⟩ = ⟨0, -1⟩ from rfl]
    simp only [List.foldl_cons, List.foldl_nil, cex4_curve1, cex4_curve2]
    norm_num [cex4_s_ba, cex4_s_aa, cex4_s_da, cex4_s_db, cex4_s_dd]
  · unfold runningClaim
    rw [if_neg (by rw [hlen]; norm_num), cex4_dedupe]
    rw [if_neg (by rw [hlen]; norm_num)]
    dsimp only
    rw [cex4_split _ (by norm_num)]
    rw [show cex4Path.headD ⟨0, 0⟩ = ⟨0, 0⟩ from rfl,
      show cex4Path.getLastD ⟨0, 0⟩ = ⟨0, -1⟩ from rfl]
    simp only [List.foldl_cons, List.foldl_nil, cex4_spec1, cex4_spec2]
    norm_num [cex4_s_ba, cex4_s_da]

/-! ## Export routing and assembly (`export_pipeline.rs`) and C7

Shape stitch blocks, the routing options, the greedy block-ordering
optimizer, the command-assembly walk of `scene_to_export_design_with_routing`
(the part after the blocks have been generated), and `compute_route_metrics`.
`f64` is modelled as `ℝ`; the `f64::INFINITY` seed of the bucket-score fold is
modelled as `Option ℝ` with `none` for infinity. -/

/-- `ShapeStitchBlock` from `export_pipeline.rs`. -/
structure ShapeStitchBlock where
  color : Color
  stitches : List Stitch
  source_order : Nat

/-- `ShapeStitchBlock::start_point` (`self.stitches[0]`; blocks are only ever
built with a non-empty stitch list). -/
noncomputable def ShapeStitchBlock.start_point (b : ShapeStitchBlock) : Point :=
  (b.stitches.headD ⟨⟨0, 0⟩, false, false⟩).position

/-- `ShapeStitchBlock::end_point`. -/
noncomputable def ShapeStitchBlock.end_point (b : ShapeStitchBlock) : Point :=
  (b.stitches.getLastD ⟨⟨0, 0⟩, false, false⟩).position

/-- A block with its stitches reversed (`next.stitches.reverse()`). -/
noncomputable def ShapeStitchBlock.reversed (b : ShapeStitchBlock) : ShapeStitchBlock :=
  ⟨b.color, b.stitches.reverse, b.source_order⟩

/-- `RoutingPolicy` from `export_pipeline.rs`. -/
inductive RoutingPolicy where
  | Balanced
  | MinTravel
  | MinTrims
deriving DecidableEq, Repr

/-- `SequenceMode` from `export_pipeline.rs`. -/
inductive SequenceMode where
  | StrictSequencer
  | Optimizer
deriving DecidableEq, Repr

/-- `RoutingOptions` from `export_pipeline.rs`. -/
structure RoutingOptions where
  policy : RoutingPolicy
  max_jump_mm : ℝ
  trim_threshold_mm : ℝ
  preserve_color_order : Bool
  preserve_layer_order : Bool
  allow_reverse : Bool
  allow_color_merge : Bool
  allow_underpath : Bool
  entry_exit_mode : EntryExitMode
  tie_mode : TieMode
  min_stitch_run_before_trim_mm : ℝ
  sequence_mode : SequenceMode

/-- `RoutingOptions::default()`. -/
noncomputable def RoutingOptions.default : RoutingOptions :=
  ⟨.Balanced, 25, 12, true, false, true, false, true, .Auto, .ShapeStartEnd, 2,
    .Optimizer⟩

/-- Replace only the `allow_reverse` field. -/
def RoutingOptions.with_allow_reverse (o : RoutingOptions) (b : Bool) :
    RoutingOptions :=
  ⟨o.policy, o.max_jump_mm, o.trim_threshold_mm, o.preserve_color_order,
    o.preserve_layer_order, b, o.allow_color_merge, o.allow_underpath,
    o.entry_exit_mode, o.tie_mode, o.min_stitch_run_before_trim_mm,
    o.sequence_mode⟩

/-- `route_cost` from `export_pipeline.rs`. -/
noncomputable def route_cost (from_ to_ : Point) (routing : RoutingOptions) : ℝ :=
  let travel := distance from_ to_
  let trim : ℝ :=
    if routing.trim_threshold_mm ≤ travel ∧
        ¬(routing.allow_underpath ∧ travel ≤ routing.max_jump_mm) then 1 else 0
  let jump_penalty :=
    if routing.max_jump_mm < travel then travel - routing.max_jump_mm else 0
  match routing.policy with
  | .MinTravel => travel + jump_penalty * 0.25
  | .MinTrims => trim * 1000 + travel * 0.1 + jump_penalty
  | .Balanced => travel + trim * routing.trim_threshold_mm + jump_penalty * 0.5

/-- `best_route_score` from `export_pipeline.rs`: greedy cost of stitching
`block` next starting at `from_`, with the chosen orientation. -/
noncomputable def best_route_score (from_ : Point) (block : ShapeStitchBlock)
    (routing : RoutingOptions) : ℝ × Bool :=
  let forward_cost := route_cost from_ block.start_point routing
  if routing.allow_reverse = false ∨
      routing.entry_exit_mode = EntryExitMode.PreserveShapeStart then
    (forward_cost, false)
  else
    let reverse_cost := route_cost from_ block.end_point routing
    if reverse_cost < forward_cost then (reverse_cost, true) else (forward_cost, false)

/-- `Iterator::min_by` with strict "less than" test `lt`: the first minimum is
kept (the accumulator is replaced only when the new element is strictly
smaller). -/
def minByB {α : Type} (lt : α → α → Bool) (l : List α) : Option α :=
  l.foldl (fun acc x =>
    match acc with
    | none => some x
    | some cur => if lt x cur then some x else some cur) none

/-- The comparator of `select_next_block_index`: score, then source order
(`partial_cmp` then `then_with`), as a strict "less than" test. -/
noncomputable def routeLt (end_ : Point) (routing : RoutingOptions)
    (a b : Nat × ShapeStitchBlock) : Bool :=
  decide ((best_route_score end_ a.2 routing).1 < (best_route_score end_ b.2 routing).1 ∨
    ((best_route_score end_ a.2 routing).1 = (best_route_score end_ b.2 routing).1 ∧
      a.2.source_order < b.2.source_order))

/-- `select_next_block_index` from `export_pipeline.rs`. -/
noncomputable def select_next_block_index (pending : List ShapeStitchBlock)
    (current_end : Option Point) (routing : RoutingOptions) : Nat × Bool :=
  match current_end with
  | none =>
    match minByB (fun a b => decide (a.2.source_order < b.2.source_order))
        pending.enum with
    | some (index, _) => (index, false)
    | none => (0, false)
  | some end_ =>
    match minByB (routeLt end_ routing) pending.enum with
    | some (index, block) => (index, (best_route_score end_ block routing).2)
    | none => (0, false)

/-- The `while !pending.is_empty()` loop of `optimize_bucket`, fuelled by the
number of pending blocks (each iteration removes exactly one). -/
noncomputable def optimize_bucket_go (routing : RoutingOptions) :
    Nat → List ShapeStitchBlock → Option Point → List ShapeStitchBlock
  | 0, _, _ => []
  | _ + 1, [], _ => []
  | fuel + 1, p :: ps, current_end =>
    let pending := p :: ps
    let sel := select_next_block_index pending current_end routing
    let next := pending.getD sel.1 ⟨⟨0, 0, 0, 0⟩, [], 0⟩
    let next1 := if sel.2 then next.reversed else next
    next1 :: optimize_bucket_go routing fuel (pending.eraseIdx sel.1)
      (some next1.end_point)

/-- `optimize_bucket` from `export_pipeline.rs`. -/
noncomputable def optimize_bucket (pending : List ShapeStitchBlock)
    (routing : RoutingOptions) (start_end : Option Point) :
    List ShapeStitchBlock :=
  optimize_bucket_go routing pending.length pending start_end

/-- `orient_blocks_for_strict_sequencer` from `export_pipeline.rs`. -/
noncomputable def orient_blocks_for_strict_sequencer
    (blocks : List ShapeStitchBlock) (routing : RoutingOptions) :
    List ShapeStitchBlock :=
  (blocks.foldl (fun (st : List ShapeStitchBlock × Option Point) block =>
    let block1 :=
      match st.2 with
      | some end_ =>
        if (best_route_score end_ block routing).2 then block.reversed else block
      | none => block
    (st.1 ++ [block1], some block1.end_point)) ([], none)).1

/-- One step of the color-bucket grouping loop of `optimize_blocks_for_travel`
(append to the first bucket with the block's color, else open a new bucket). -/
noncomputable def push_into_buckets
    (buckets : List (Color × List ShapeStitchBlock)) (block : ShapeStitchBlock) :
    List (Color × List ShapeStitchBlock) :=
  if buckets.any (fun cb => cb.1 = block.color) then
    buckets.map (fun cb =>
      if cb.1 = block.color then (cb.1, cb.2 ++ [block]) else cb)
  else buckets ++ [(block.color, [block])]

/-- A bucket's score when choosing the next color bucket: fold of `f64::min`
over the blocks' best scores, seeded with `f64::INFINITY` (`none`). -/
noncomputable def bucket_score (end_ : Point) (routing : RoutingOptions)
    (bucket : List ShapeStitchBlock) : Option ℝ :=
  (bucket.map (fun b => (best_route_score end_ b routing).1)).foldl
    (fun acc c =>
      match acc with
      | none => some c
      | some a => some (min a c)) none

/-- Strict comparison on optional scores (`none` is `f64::INFINITY`). -/
noncomputable def optValLt : Option ℝ → Option ℝ → Bool
  | some a, some b => decide (a < b)
  | some _, none => true
  | none, _ => false

/-- The `while !color_buckets.is_empty()` loop of `optimize_blocks_for_travel`
(the `allow_color_merge` path), fuelled by the number of buckets. -/
noncomputable def route_buckets_merge_go (routing : RoutingOptions) :
    Nat → List (Color × List ShapeStitchBlock) → List ShapeStitchBlock →
      Option Point → List ShapeStitchBlock
  | 0, _, ordered, _ => ordered
  | _ + 1, [], ordered, _ => ordered
  | fuel + 1, b :: bs, ordered, current_end =>
    let buckets := b :: bs
    let bucket_index :=
      match current_end with
      | none => 0
      | some end_ =>
        match minByB (fun x y => optValLt x.2 y.2)
            (buckets.enum.map (fun ib => (ib.1, bucket_score end_ routing ib.2.2))) with
        | some (idx, _) => idx
        | none => 0
    let bucket := (buckets.getD bucket_index (⟨0, 0, 0, 0⟩, [])).2
    let optimized := optimize_bucket bucket routing current_end
    let current_end1 :=
      match optimized.getLast? with
      | some last => some last.end_point
      | none => current_end
    route_buckets_merge_go routing fuel (buckets.eraseIdx bucket_index)
      (ordered ++ optimized) current_end1

/-- `optimize_blocks_for_travel` from `export_pipeline.rs`. -/
noncomputable def optimize_blocks_for_travel (blocks : List ShapeStitchBlock)
    (routing : RoutingOptions) : List ShapeStitchBlock :=
  if blocks.length ≤ 1 then blocks
  else if routing.sequence_mode = SequenceMode.StrictSequencer then
    orient_blocks_for_strict_sequencer blocks routing
  else if routing.preserve_layer_order then blocks
  else if routing.preserve_color_order = false then optimize_bucket blocks routing none
  else
    let color_buckets := blocks.foldl push_into_buckets []
    if routing.allow_color_merge = false then
      (color_buckets.foldl (fun (st : List ShapeStitchBlock × Option Point) cb =>
        let optimized := optimize_bucket cb.2 routing st.2
        let current_end1 :=
          match optimized.getLast? with
          | some last => some last.end_point
          | none =>
            match st.2 with
            | some e => some e
            | none => st.1.getLast?.map ShapeStitchBlock.end_point
        (st.1 ++ optimized, current_end1)) ([], none)).1
    else
      route_buckets_merge_go routing color_buckets.length color_buckets [] none

/-- An assembled export stitch with `f64` coordinates (ℝ model). -/
structure ExportStitchR where
  x : ℝ
  y : ℝ
  stitch_type : ExportStitchType

/-- The mutable state of the assembly loop of
`scene_to_export_design_with_routing`. -/
structure AsmState where
  stitches : List ExportStitchR
  colors : List Color
  current_color : Option Color
  current_position : Option Point
  run_since_trim_mm : ℝ

/-- `TIE_OFFSET_MM` from `emit_tie_sequence`. -/
noncomputable def TIE_OFFSET_MM : ℝ := 0.25

/-- `emit_tie_sequence` from `export_pipeline.rs`: lock stitch
center → +x → center → −x → center. -/
noncomputable def emit_tie_sequence (anchor : Point)
    (st : List ExportStitchR × Option Point × ℝ) :
    List ExportStitchR × Option Point × ℝ :=
  [anchor, ⟨anchor.x + TIE_OFFSET_MM, anchor.y⟩, anchor,
    ⟨anchor.x - TIE_OFFSET_MM, anchor.y⟩, anchor].foldl
    (fun st p =>
      let run :=
        match st.2.1 with
        | some prev => st.2.2 + distance prev p
        | none => st.2.2
      (st.1 ++ [⟨p.x, p.y, ExportStitchType.Normal⟩], some p, run)) st

/-- `should_insert_trim` from `export_pipeline.rs`. -/
noncomputable def should_insert_trim (routing : RoutingOptions)
    (travel_mm run_since_trim_mm : ℝ) : Bool :=
  if travel_mm < routing.trim_threshold_mm then false
  else if run_since_trim_mm < max routing.min_stitch_run_before_trim_mm 0 then false
  else if routing.allow_underpath ∧ travel_mm ≤ routing.max_jump_mm then false
  else decide (routing.policy = RoutingPolicy.Balanced ∨
    routing.policy = RoutingPolicy.MinTrims)

/-- The body of the per-block assembly loop of
`scene_to_export_design_with_routing` (export_pipeline.rs lines 459–577). -/
noncomputable def assemble_step (routing : RoutingOptions) (st : AsmState)
    (block : ShapeStitchBlock) : AsmState :=
  let color := block.color
  let shape_stitches := block.stitches
  let start_point := (shape_stitches.headD ⟨⟨0, 0⟩, false, false⟩).position
  let st1 : AsmState :=
    if st.current_color.isSome ∧ st.current_color ≠ some color then
      let t0 :=
        if routing.tie_mode = TieMode.ColorChange then
          match st.current_position with
          | some anchor =>
            emit_tie_sequence anchor (st.stitches, st.current_position, st.run_since_trim_mm)
          | none => (st.stitches, st.current_position, st.run_since_trim_mm)
        else (st.stitches, st.current_position, st.run_since_trim_mm)
      let t2 : List ExportStitchR × ℝ :=
        match t0.1.getLast? with
        | some last => (t0.1 ++ [⟨last.x, last.y, ExportStitchType.Trim⟩], (0 : ℝ))
        | none => (t0.1, t0.2.2)
      let stitches3 :=
        t2.1 ++ [⟨start_point.x, start_point.y, ExportStitchType.ColorChange⟩]
      let t4 :=
        if routing.tie_mode = TieMode.ColorChange then
          emit_tie_sequence start_point (stitches3, some start_point, t2.2)
        else (stitches3, some start_point, t2.2)
      ⟨t4.1, st.colors, st.current_color, t4.2.1, t4.2.2⟩
    else st
  let st2 : AsmState :=
    if st1.current_color ≠ some color then
      ⟨st1.stitches, st1.colors ++ [color], some color, st1.current_position,
        st1.run_since_trim_mm⟩
    else st1
  let st3 : AsmState :=
    match st2.current_position with
    | some prev =>
      let travel := distance prev start_point
      if F64_EPSILON < travel then
        let t5 : List ExportStitchR × ℝ :=
          if should_insert_trim routing travel st2.run_since_trim_mm &&
              (match st2.stitches.getLast? with
                | some s => decide (s.stitch_type ≠ ExportStitchType.Trim)
                | none => false) then
            (st2.stitches ++ [⟨prev.x, prev.y, ExportStitchType.Trim⟩], (0 : ℝ))
          else (st2.stitches, st2.run_since_trim_mm)
        ⟨t5.1 ++ [⟨start_point.x, start_point.y, ExportStitchType.Jump⟩],
          st2.colors, st2.current_color, some start_point, t5.2⟩
      else st2
    | none => st2
  let st4 : AsmState :=
    if routing.tie_mode = TieMode.ShapeStartEnd then
      let t := emit_tie_sequence start_point
        (st3.stitches, st3.current_position, st3.run_since_trim_mm)
      ⟨t.1, st3.colors, st3.current_color, t.2.1, t.2.2⟩
    else st3
  let st5 := shape_stitches.foldl (fun (s : AsmState) stitch =>
    let stitch_type :=
      if stitch.is_jump then ExportStitchType.Jump
      else if stitch.is_trim then ExportStitchType.Trim
      else ExportStitchType.Normal
    let run1 :=
      if stitch_type = ExportStitchType.Normal then
        match s.current_position with
        | some prev => s.run_since_trim_mm + distance prev stitch.position
        | none => s.run_since_trim_mm
      else if stitch_type = ExportStitchType.Trim then 0
      else s.run_since_trim_mm
    ⟨s.stitches ++ [⟨stitch.position.x, stitch.position.y, stitch_type⟩],
      s.colors, s.current_color, some stitch.position, run1⟩) st4
  if routing.tie_mode = TieMode.ShapeStartEnd then
    match st5.current_position with
    | some anchor =>
      let t := emit_tie_sequence anchor
        (st5.stitches, st5.current_position, st5.run_since_trim_mm)
      ⟨t.1, st5.colors, st5.current_color, t.2.1, t.2.2⟩
    | none => st5
  else st5

/-- The assembly stage of `scene_to_export_design_with_routing`: walk the
(already routed) blocks, then append the end marker and the fallback color. -/
noncomputable def assemble_blocks (blocks : List ShapeStitchBlock)
    (routing : RoutingOptions) : List ExportStitchR × List Color :=
  let st := blocks.foldl (assemble_step routing) ⟨[], [], none, none, 0⟩
  let stitches1 :=
    match st.stitches.getLast? with
    | some last => st.stitches ++ [⟨last.x, last.y, ExportStitchType.End⟩]
    | none => st.stitches
  let colors1 := if st.colors = [] then [⟨0, 0, 0, 255⟩] else st.colors
  (stitches1, colors1)

/-- `distance_xy` from `export_pipeline.rs`. -/
noncomputable def distance_xy (ax ay bx by_ : ℝ) : ℝ :=
  Real.sqrt ((bx - ax) * (bx - ax) + (by_ - ay) * (by_ - ay))

/-- `RouteMetrics` from `export_pipeline.rs`. -/
structure RouteMetrics where
  jump_count : Nat
  trim_count : Nat
  color_change_count : Nat
  travel_distance_mm : ℝ
  longest_travel_mm : ℝ
  route_score : ℝ

/-- `compute_route_metrics` from `export_pipeline.rs`, on the stitch list of
the assembled design: count jump/trim/color-change stitches, and accumulate
the distance from the previous stitch to every jump/trim/color-change
stitch. -/
noncomputable def compute_route_metrics (stitches : List ExportStitchR) :
    RouteMetrics :=
  let travels := (stitches.zip stitches.tail).filterMap (fun pr =>
    if pr.2.stitch_type = ExportStitchType.Jump ∨
        pr.2.stitch_type = ExportStitchType.Trim ∨
        pr.2.stitch_type = ExportStitchType.ColorChange then
      some (distance_xy pr.1.x pr.1.y pr.2.x pr.2.y)
    else none)
  let jump_count := stitches.countP (fun s => decide (s.stitch_type = ExportStitchType.Jump))
  let trim_count := stitches.countP (fun s => decide (s.stitch_type = ExportStitchType.Trim))
  let color_change_count :=
    stitches.countP (fun s => decide (s.stitch_type = ExportStitchType.ColorChange))
  let travel_distance_mm := travels.sum
  let longest_travel_mm := travels.foldl max 0
  ⟨jump_count, trim_count, color_change_count, travel_distance_mm, longest_travel_mm,
    travel_distance_mm + trim_count * 8 + jump_count * 2 + color_change_count * 25⟩

/-- C7 (amended): per greedy step the score is monotone — for any current
position, block and options, the `best_route_score` used by the optimizer with
`allow_reverse = true` is never larger than with `allow_reverse = false`
(reversal widens the per-step choice); the end-to-end travel distance of the
assembled design, however, may still increase (see the counterexample). -/
theorem best_route_score_allow_reverse_le (from_ : Point)
    (block : ShapeStitchBlock) (o : RoutingOptions) :
    (best_route_score from_ block (o.with_allow_reverse true)).1 ≤
      (best_route_score from_ block (o.with_allow_reverse false)).1 := by
  unfold best_route_score
  have hfields : ∀ b p, route_cost from_ p (o.with_allow_reverse b) =
      route_cost from_ p o := by
    intro b p
    rfl
  have hfalse : (o.with_allow_reverse false).allow_reverse = false := rfl
  rw [if_pos (Or.inl hfalse)]
  by_cases hm : (o.with_allow_reverse true).entry_exit_mode =
    EntryExitMode.PreserveShapeStart
  · rw [if_pos (Or.inr hm)]
    dsimp only
    rw [hfields, hfields]
  · rw [if_neg (by
      intro h
      rcases h with h | h
      · simp [RoutingOptions.with_allow_reverse] at h
      · exact hm h)]
    dsimp only
    split
    · next h =>
      rw [hfields] at h ⊢
      rw [hfields]
      exact le_of_lt h
    · dsimp only
      rw [hfields, hfields]

lemma sqrt_eval {a b : ℝ} (hb : 0 ≤ b) (h : b ^ 2 = a) : Real.sqrt a = b := by
  rw [← h, Real.sqrt_sq hb]

lemma sqrt_lt_num {a b : ℝ} (hb : 0 < b) (h : a < b ^ 2) : Real.sqrt a < b :=
  (Real.sqrt_lt' hb).mpr h

lemma num_lt_sqrt {a b : ℝ} (ha : 0 ≤ a) (h : a ^ 2 < b) : a < Real.sqrt b :=
  (Real.lt_sqrt ha).mpr h

lemma distance_eval (ax ay bx byy v r : ℝ)
    (hv : (bx - ax) * (bx - ax) + (byy - ay) * (byy - ay) = v)
    (hr : 0 ≤ r) (h : r ^ 2 = v) :
    distance ⟨ax, ay⟩ ⟨bx, byy⟩ = r := by
  unfold distance
  dsimp only
  rw [hv]
  exact sqrt_eval hr h

lemma distance_sqrt (ax ay bx byy v : ℝ)
    (hv : (bx - ax) * (bx - ax) + (byy - ay) * (byy - ay) = v) :
    distance ⟨ax, ay⟩ ⟨bx, byy⟩ = Real.sqrt v := by
  unfold distance
  dsimp only
  rw [hv]

/-- The four same-color blocks of the C7 counterexample. -/
noncomputable def blockA : ShapeStitchBlock :=
  ⟨⟨0, 0, 0, 255⟩, [⟨⟨-1, 0⟩, false, false⟩, ⟨⟨0, 0⟩, false, false⟩], 0⟩

noncomputable def blockX : ShapeStitchBlock :=
  ⟨⟨0, 0, 0, 255⟩, [⟨⟨5, 0⟩, false, false⟩, ⟨⟨5, 100⟩, false, false⟩], 1⟩

noncomputable def blockY : ShapeStitchBlock :=
  ⟨⟨0, 0, 0, 255⟩, [⟨⟨100, 100⟩, false, false⟩, ⟨⟨1, 0⟩, false, false⟩], 2⟩

noncomputable def blockZ : ShapeStitchBlock :=
  ⟨⟨0, 0, 0, 255⟩, [⟨⟨5, 101⟩, false, false⟩, ⟨⟨5, 200⟩, false, false⟩], 3⟩

noncomputable def cexBlocks : List ShapeStitchBlock := [blockA, blockX, blockY, blockZ]

/-- The routing options of the C7 counterexample (`allow_reverse = false`
variant): pure min-travel policy, generous jump/trim thresholds, no ties. -/
noncomputable def cexOpts : RoutingOptions :=
  ⟨.MinTravel, 1e6, 1e6, true, false, false, false, true, .Auto, .Off, 2, .Optimizer⟩

lemma route_cost_minTravel (p q : Point) (o : RoutingOptions)
    (hpol : o.policy = RoutingPolicy.MinTravel)
    (h : ¬(o.max_jump_mm < distance p q)) :
    route_cost p q o = distance p q := by
  unfold route_cost
  rw [hpol]
  dsimp only
  rw [if_neg h]
  ring

lemma should_insert_trim_small (o : RoutingOptions) (t r : ℝ)
    (h : t < o.trim_threshold_mm) : should_insert_trim o t r = false := by
  unfold should_insert_trim
  rw [if_pos h]

lemma c7d1 : distance ⟨0, 0⟩ ⟨5, 0⟩ = 5 :=
  distance_eval 0 0 5 0 25 5 (by norm_num) (by norm_num) (by norm_num)

lemma c7d2 : distance ⟨0, 0⟩ ⟨100, 100⟩ = Real.sqrt 20000 :=
  distance_sqrt 0 0 100 100 20000 (by norm_num)

lemma c7d3 : distance ⟨0, 0⟩ ⟨1, 0⟩ = 1 :=
  distance_eval 0 0 1 0 1 1 (by norm_num) (by norm_num) (by norm_num)

lemma c7d4 : distance ⟨0, 0⟩ ⟨5, 101⟩ = Real.sqrt 10226 :=
  distance_sqrt 0 0 5 101 10226 (by norm_num)

lemma c7d5 : distance ⟨0, 0⟩ ⟨5, 100⟩ = Real.sqrt 10025 :=
  distance_sqrt 0 0 5 100 10025 (by norm_num)

lemma c7d6 : distance ⟨0, 0⟩ ⟨5, 200⟩ = Real.sqrt 40025 :=
  distance_sqrt 0 0 5 200 40025 (by norm_num)

lemma c7d7 : distance ⟨5, 100⟩ ⟨100, 100⟩ = 95 :=
  distance_eval 5 100 100 100 9025 95 (by norm_num) (by norm_num) (by norm_num)

lemma c7d8 : distance ⟨5, 100⟩ ⟨5, 101⟩ = 1 :=
  distance_eval 5 100 5 101 1 1 (by norm_num) (by norm_num) (by norm_num)

lemma c7d9 : distance ⟨5, 200⟩ ⟨100, 100⟩ = Real.sqrt 19025 :=
  distance_sqrt 5 200 100 100 19025 (by norm_num)

lemma c7d10 : distance ⟨100, 100⟩ ⟨5, 0⟩ = Real.sqrt 19025 :=
  distance_sqrt 100 100 5 0 19025 (by norm_num)

lemma c7d11 : distance ⟨100, 100⟩ ⟨5, 100⟩ = 95 :=
  distance_eval 100 100 5 100 9025 95 (by norm_num) (by norm_num) (by norm_num)

lemma c7d12 : distance ⟨100, 100⟩ ⟨5, 101⟩ = Real.sqrt 9026 :=
  distance_sqrt 100 100 5 101 9026 (by norm_num)

lemma c7d13 : distance ⟨100, 100⟩ ⟨5, 200⟩ = Real.sqrt 19025 :=
  distance_sqrt 100 100 5 200 19025 (by norm_num)

lemma c7d14 : distance ⟨5, 0⟩ ⟨5, 101⟩ = 101 :=
  distance_eval 5 0 5 101 10201 101 (by norm_num) (by norm_num) (by norm_num)

lemma c7d15 : distance ⟨5, 0⟩ ⟨5, 200⟩ = 200 :=
  distance_eval 5 0 5 200 40000 200 (by norm_num) (by norm_num) (by norm_num)

lemma c7d16 : distance ⟨-1, 0⟩ ⟨0, 0⟩ = 1 :=
  distance_eval (-1) 0 0 0 1 1 (by norm_num) (by norm_num) (by norm_num)

lemma c7d17 : distance ⟨5, 0⟩ ⟨5, 0⟩ = 0 :=
  distance_eval 5 0 5 0 0 0 (by norm_num) (by norm_num) (by norm_num)

lemma c7d18 : distance ⟨5, 0⟩ ⟨5, 100⟩ = 100 :=
  distance_eval 5 0 5 100 10000 100 (by norm_num) (by norm_num) (by norm_num)

lemma c7d19 : distance ⟨5, 101⟩ ⟨5, 101⟩ = 0 :=
  distance_eval 5 101 5 101 0 0 (by norm_num) (by norm_num) (by norm_num)

lemma c7d20 : distance ⟨5, 101⟩ ⟨5, 200⟩ = 99 :=
  distance_eval 5 101 5 200 9801 99 (by norm_num) (by norm_num) (by norm_num)

lemma c7d21 : distance ⟨100, 100⟩ ⟨100, 100⟩ = 0 :=
  distance_eval 100 100 100 100 0 0 (by norm_num) (by norm_num) (by norm_num)

lemma c7d22 : distance ⟨100, 100⟩ ⟨1, 0⟩ = Real.sqrt 19801 :=
  distance_sqrt 100 100 1 0 19801 (by norm_num)

lemma c7d23 : distance ⟨1, 0⟩ ⟨1, 0⟩ = 0 :=
  distance_eval 1 0 1 0 0 0 (by norm_num) (by norm_num) (by norm_num)

lemma c7d24 : distance ⟨1, 0⟩ ⟨100, 100⟩ = Real.sqrt 19801 :=
  distance_sqrt 1 0 100 100 19801 (by norm_num)

lemma c7d25 : distance ⟨5, 100⟩ ⟨5, 100⟩ = 0 :=
  distance_eval 5 100 5 100 0 0 (by norm_num) (by norm_num) (by norm_num)

lemma c7d26 : distance ⟨5, 100⟩ ⟨5, 0⟩ = 100 :=
  distance_eval 5 100 5 0 10000 100 (by norm_num) (by norm_num) (by norm_num)

lemma c7rc_small (p q : Point) (h : distance p q ≤ 1e6) :
    route_cost p q cexOpts = distance p q :=
  route_cost_minTravel p q cexOpts rfl
    (by rw [show cexOpts.max_jump_mm = 1e6 from rfl]; exact not_lt.mpr h)

lemma c7brF (e : Point) (b : ShapeStitchBlock) :
    best_route_score e b cexOpts = (route_cost e b.start_point cexOpts, false) := by
  unfold best_route_score
  have h : cexOpts.allow_reverse = false := rfl
  rw [if_pos (Or.inl h)]

lemma c7brT (e : Point) (b : ShapeStitchBlock) :
    best_route_score e b (cexOpts.with_allow_reverse true)
      = if route_cost e b.end_point cexOpts < route_cost e b.start_point cexOpts
        then (route_cost e b.end_point cexOpts, true)
        else (route_cost e b.start_point cexOpts, false) := by
  unfold best_route_score
  rw [if_neg]
  · rfl
  · rintro (h | h)
    · exact absurd h (by rw [show (cexOpts.with_allow_reverse true).allow_reverse
        = true from rfl]; simp)
    · exact absurd h (by rw [show (cexOpts.with_allow_reverse true).entry_exit_mode
        = EntryExitMode.Auto from rfl]; simp)

lemma c7sF_X0 : best_route_score ⟨0, 0⟩ blockX cexOpts = (5, false) := by
  rw [c7brF, show blockX.start_point = ⟨5, 0⟩ from rfl,
    c7rc_small _ _ (by rw [c7d1]; norm_num), c7d1]

lemma c7sF_Y0 : best_route_score ⟨0, 0⟩ blockY cexOpts = (Real.sqrt 20000, false) := by
  rw [c7brF, show blockY.start_point = ⟨100, 100⟩ from rfl,
    c7rc_small _ _ (by rw [c7d2]; exact le_of_lt (sqrt_lt_num (by norm_num) (by norm_num))), c7d2]

lemma c7sF_Z0 : best_route_score ⟨0, 0⟩ blockZ cexOpts = (Real.sqrt 10226, false) := by
  rw [c7brF, show blockZ.start_point = ⟨5, 101⟩ from rfl,
    c7rc_small _ _ (by rw [c7d4]; exact le_of_lt (sqrt_lt_num (by norm_num) (by norm_num))), c7d4]

lemma c7sF_Y1 : best_route_score ⟨5, 100⟩ blockY cexOpts = (95, false) := by
  rw [c7brF, show blockY.start_point = ⟨100, 100⟩ from rfl,
    c7rc_small _ _ (by rw [c7d7]; norm_num), c7d7]

lemma c7sF_Z1 : best_route_score ⟨5, 100⟩ blockZ cexOpts = (1, false) := by
  rw [c7brF, show blockZ.start_point = ⟨5, 101⟩ from rfl,
    c7rc_small _ _ (by rw [c7d8]; norm_num), c7d8]

lemma c7sF_Y2 : best_route_score ⟨5, 200⟩ blockY cexOpts = (Real.sqrt 19025, false) := by
  rw [c7brF, show blockY.start_point = ⟨100, 100⟩ from rfl,
    c7rc_small _ _ (by rw [c7d9]; exact le_of_lt (sqrt_lt_num (by norm_num) (by norm_num))), c7d9]

lemma c7sT_X0 : best_route_score ⟨0, 0⟩ blockX (cexOpts.with_allow_reverse true)
    = (5, false) := by
  rw [c7brT, show blockX.start_point = ⟨5, 0⟩ from rfl,
    show blockX.end_point = ⟨5, 100⟩ from rfl,
    c7rc_small ⟨0, 0⟩ ⟨5, 100⟩ (by rw [c7d5]; exact le_of_lt (sqrt_lt_num (by norm_num) (by norm_num))),
    c7rc_small ⟨0, 0⟩ ⟨5, 0⟩ (by rw [c7d1]; norm_num), c7d1, c7d5]
  rw [if_neg (not_lt.mpr (le_of_lt (num_lt_sqrt (by norm_num) (by norm_num))))]

lemma c7sT_Y0 : best_route_score ⟨0, 0⟩ blockY (cexOpts.with_allow_reverse true)
    = (1, true) := by
  rw [c7brT, show blockY.start_point = ⟨100, 100⟩ from rfl,
    show blockY.end_point = ⟨1, 0⟩ from rfl,
    c7rc_small ⟨0, 0⟩ ⟨1, 0⟩ (by rw [c7d3]; norm_num),
    c7rc_small ⟨0, 0⟩ ⟨100, 100⟩ (by rw [c7d2]; exact le_of_lt (sqrt_lt_num (by norm_num) (by norm_num))),
    c7d2, c7d3]
  rw [if_pos (num_lt_sqrt (by norm_num) (by norm_num))]

lemma c7sT_Z0 : best_route_score ⟨0, 0⟩ blockZ (cexOpts.with_allow_reverse true)
    = (Real.sqrt 10226, false) := by
  rw [c7brT, show blockZ.start_point = ⟨5, 101⟩ from rfl,
    show blockZ.end_point = ⟨5, 200⟩ from rfl,
    c7rc_small ⟨0, 0⟩ ⟨5, 200⟩ (by rw [c7d6]; exact le_of_lt (sqrt_lt_num (by norm_num) (by norm_num))),
    c7rc_small ⟨0, 0⟩ ⟨5, 101⟩ (by rw [c7d4]; exact le_of_lt (sqrt_lt_num (by norm_num) (by norm_num))),
    c7d4, c7d6]
  rw [if_neg (not_lt.mpr (Real.sqrt_le_sqrt (by norm_num)))]

lemma c7sT_X1 : best_route_score ⟨100, 100⟩ blockX (cexOpts.with_allow_reverse true)
    = (95, true) := by
  rw [c7brT, show blockX.start_point = ⟨5, 0⟩ from rfl,
    show blockX.end_point = ⟨5, 100⟩ from rfl,
    c7rc_small ⟨100, 100⟩ ⟨5, 100⟩ (by rw [c7d11]; norm_num),
    c7rc_small ⟨100, 100⟩ ⟨5, 0⟩ (by rw [c7d10]; exact le_of_lt (sqrt_lt_num (by norm_num) (by norm_num))),
    c7d10, c7d11]
  rw [if_pos (num_lt_sqrt (by norm_num) (by norm_num))]

lemma c7sT_Z1 : best_route_score ⟨100, 100⟩ blockZ (cexOpts.with_allow_reverse true)
    = (Real.sqrt 9026, false) := by
  rw [c7brT, show blockZ.start_point = ⟨5, 101⟩ from rfl,
    show blockZ.end_point = ⟨5, 200⟩ from rfl,
    c7rc_small ⟨100, 100⟩ ⟨5, 200⟩ (by rw [c7d13]; exact le_of_lt (sqrt_lt_num (by norm_num) (by norm_num))),
    c7rc_small ⟨100, 100⟩ ⟨5, 101⟩ (by rw [c7d12]; exact le_of_lt (sqrt_lt_num (by norm_num) (by norm_num))),
    c7d12, c7d13]
  rw [if_neg (not_lt.mpr (Real.sqrt_le_sqrt (by norm_num)))]

lemma c7sT_Z2 : best_route_score ⟨5, 0⟩ blockZ (cexOpts.with_allow_reverse true)
    = (101, false) := by
  rw [c7brT, show blockZ.start_point = ⟨5, 101⟩ from rfl,
    show blockZ.end_point = ⟨5, 200⟩ from rfl,
    c7rc_small ⟨5, 0⟩ ⟨5, 200⟩ (by rw [c7d15]; norm_num),
    c7rc_small ⟨5, 0⟩ ⟨5, 101⟩ (by rw [c7d14]; norm_num), c7d14, c7d15]
  rw [if_neg (by norm_num)]

lemma routeLt_false {e : Point} {o : RoutingOptions} {a b : Nat × ShapeStitchBlock}
    (h1 : ¬((best_route_score e a.2 o).1 < (best_route_score e b.2 o).1))
    (h2 : (best_route_score e a.2 o).1 = (best_route_score e b.2 o).1 →
      ¬(a.2.source_order < b.2.source_order)) :
    routeLt e o a b = false := by
  unfold routeLt
  apply decide_eq_false
  rintro (h | ⟨he, ho⟩)
  · exact h1 h
  · exact h2 he ho

lemma routeLt_true {e : Point} {o : RoutingOptions} {a b : Nat × ShapeStitchBlock}
    (h : (best_route_score e a.2 o).1 < (best_route_score e b.2 o).1) :
    routeLt e o a b = true :=
  decide_eq_true (Or.inl h)

lemma c7selF1 : select_next_block_index [blockA, blockX, blockY, blockZ] none
    cexOpts = (0, false) := rfl

lemma c7selF2 : select_next_block_index [blockX, blockY, blockZ]
    (some ⟨0, 0⟩) cexOpts = (0, false) := by
  have hYX : routeLt ⟨0, 0⟩ cexOpts (1, blockY) (0, blockX) = false :=
    routeLt_false
      (by rw [c7sF_Y0, c7sF_X0]
          exact not_lt.mpr (le_of_lt (num_lt_sqrt (by norm_num) (by norm_num))))
      (by rw [c7sF_Y0, c7sF_X0]
          intro he
          exact absurd he (ne_of_gt (num_lt_sqrt (by norm_num) (by norm_num))))
  have hZX : routeLt ⟨0, 0⟩ cexOpts (2, blockZ) (0, blockX) = false :=
    routeLt_false
      (by rw [c7sF_Z0, c7sF_X0]
          exact not_lt.mpr (le_of_lt (num_lt_sqrt (by norm_num) (by norm_num))))
      (by rw [c7sF_Z0, c7sF_X0]
          intro he
          exact absurd he (ne_of_gt (num_lt_sqrt (by norm_num) (by norm_num))))
  unfold select_next_block_index minByB
  rw [show List.enum [blockX, blockY, blockZ]
    = [(0, blockX), (1, blockY), (2, blockZ)] from rfl]
  simp only [List.foldl_cons, List.foldl_nil, hYX, hZX, Bool.false_eq_true, if_false]
  rw [c7sF_X0]

lemma c7selF3 : select_next_block_index [blockY, blockZ]
    (some ⟨5, 100⟩) cexOpts = (1, false) := by
  have hZY : routeLt ⟨5, 100⟩ cexOpts (1, blockZ) (0, blockY) = true :=
    routeLt_true (by rw [c7sF_Z1, c7sF_Y1]; norm_num)
  unfold select_next_block_index minByB
  rw [show List.enum [blockY, blockZ] = [(0, blockY), (1, blockZ)] from rfl]
  simp only [List.foldl_cons, List.foldl_nil, hZY, if_true]
  rw [c7sF_Z1]

lemma c7selF4 : select_next_block_index [blockY]
    (some ⟨5, 200⟩) cexOpts = (0, false) := by
  unfold select_next_block_index minByB
  rw [show List.enum [blockY] = [(0, blockY)] from rfl]
  simp only [List.foldl_cons, List.foldl_nil]
  rw [c7sF_Y2]

lemma c7selT1 : select_next_block_index [blockA, blockX, blockY, blockZ] none
    (cexOpts.with_allow_reverse true) = (0, false) := rfl

lemma c7selT2 : select_next_block_index [blockX, blockY, blockZ]
    (some ⟨0, 0⟩) (cexOpts.with_allow_reverse true) = (1, true) := by
  have hYX : routeLt ⟨0, 0⟩ (cexOpts.with_allow_reverse true) (1, blockY) (0, blockX)
      = true :=
    routeLt_true (by rw [c7sT_Y0, c7sT_X0]; norm_num)
  have hZY : routeLt ⟨0, 0⟩ (cexOpts.with_allow_reverse true) (2, blockZ) (1, blockY)
      = false :=
    routeLt_false
      (by rw [c7sT_Z0, c7sT_Y0]
          exact not_lt.mpr (le_of_lt (num_lt_sqrt (by norm_num) (by norm_num))))
      (by rw [c7sT_Z0, c7sT_Y0]
          intro he
          exact absurd he (ne_of_gt (num_lt_sqrt (by norm_num) (by norm_num))))
  unfold select_next_block_index minByB
  rw [show List.enum [blockX, blockY, blockZ]
    = [(0, blockX), (1, blockY), (2, blockZ)] from rfl]
  simp only [List.foldl_cons, List.foldl_nil, hYX, hZY, if_true,
    Bool.false_eq_true, if_false]
  rw [c7sT_Y0]

lemma c7selT3 : select_next_block_index [blockX, blockZ]
    (some ⟨100, 100⟩) (cexOpts.with_allow_reverse true) = (0, true) := by
  have hZX : routeLt ⟨100, 100⟩ (cexOpts.with_allow_reverse true) (1, blockZ) (0, blockX)
      = false :=
    routeLt_false
      (by rw [c7sT_Z1, c7sT_X1]
          exact not_lt.mpr (le_of_lt (num_lt_sqrt (by norm_num) (by norm_num))))
      (by rw [c7sT_Z1, c7sT_X1]
          intro he
          exact absurd he (ne_of_gt (num_lt_sqrt (by norm_num) (by norm_num))))
  unfold select_next_block_index minByB
  rw [show List.enum [blockX, blockZ] = [(0, blockX), (1, blockZ)] from rfl]
  simp only [List.foldl_cons, List.foldl_nil, hZX, Bool.false_eq_true, if_false]
  rw [c7sT_X1]

lemma c7selT4 : select_next_block_index [blockZ]
    (some ⟨5, 0⟩) (cexOpts.with_allow_reverse true) = (0, false) := by
  unfold select_next_block_index minByB
  rw [show List.enum [blockZ] = [(0, blockZ)] from rfl]
  simp only [List.foldl_cons, List.foldl_nil]
  rw [c7sT_Z2]

lemma c7goF1 : optimize_bucket_go cexOpts (3 + 1) [blockA, blockX, blockY, blockZ] none
    = blockA :: optimize_bucket_go cexOpts 3 [blockX, blockY, blockZ] (some ⟨0, 0⟩) := by
  simp only [optimize_bucket_go, c7selF1, List.getD, List.eraseIdx,
    Bool.false_eq_true, if_false, show blockA.end_point = ⟨0, 0⟩ from rfl]
  rfl

lemma c7goF2 : optimize_bucket_go cexOpts (2 + 1) [blockX, blockY, blockZ] (some ⟨0, 0⟩)
    = blockX :: optimize_bucket_go cexOpts 2 [blockY, blockZ] (some ⟨5, 100⟩) := by
  simp only [optimize_bucket_go, c7selF2, List.getD, List.eraseIdx,
    Bool.false_eq_true, if_false, show blockX.end_point = ⟨5, 100⟩ from rfl]
  rfl

lemma c7goF3 : optimize_bucket_go cexOpts (1 + 1) [blockY, blockZ] (some ⟨5, 100⟩)
    = blockZ :: optimize_bucket_go cexOpts 1 [blockY] (some ⟨5, 200⟩) := by
  simp only [optimize_bucket_go, c7selF3, List.getD, List.eraseIdx,
    Bool.false_eq_true, if_false, show blockZ.end_point = ⟨5, 200⟩ from rfl]
  rfl

lemma c7goF4 : optimize_bucket_go cexOpts (0 + 1) [blockY] (some ⟨5, 200⟩)
    = [blockY] := by
  simp only [optimize_bucket_go, c7selF4, List.getD, List.eraseIdx,
    Bool.false_eq_true, if_false]
  rfl

lemma c7bucketF : optimize_bucket [blockA, blockX, blockY, blockZ] cexOpts none
    = [blockA, blockX, blockZ, blockY] := by
  unfold optimize_bucket
  rw [show ([blockA, blockX, blockY, blockZ] : List ShapeStitchBlock).length
    = 3 + 1 from rfl]
  rw [c7goF1, show (3 : Nat) = 2 + 1 from rfl, c7goF2,
    show (2 : Nat) = 1 + 1 from rfl, c7goF3,
    show (1 : Nat) = 0 + 1 from rfl, c7goF4]

lemma c7goT1 : optimize_bucket_go (cexOpts.with_allow_reverse true) (3 + 1)
    [blockA, blockX, blockY, blockZ] none
    = blockA :: optimize_bucket_go (cexOpts.with_allow_reverse true) 3
        [blockX, blockY, blockZ] (some ⟨0, 0⟩) := by
  simp only [optimize_bucket_go, c7selT1, List.getD, List.eraseIdx,
    Bool.false_eq_true, if_false, show blockA.end_point = ⟨0, 0⟩ from rfl]
  rfl

lemma c7goT2 : optimize_bucket_go (cexOpts.with_allow_reverse true) (2 + 1)
    [blockX, blockY, blockZ] (some ⟨0, 0⟩)
    = blockY.reversed :: optimize_bucket_go (cexOpts.with_allow_reverse true) 2
        [blockX, blockZ] (some ⟨100, 100⟩) := by
  simp only [optimize_bucket_go, c7selT2, List.getD, List.eraseIdx, if_true,
    show blockY.reversed.end_point = ⟨100, 100⟩ from rfl]
  rfl

lemma c7goT3 : optimize_bucket_go (cexOpts.with_allow_reverse true) (1 + 1)
    [blockX, blockZ] (some ⟨100, 100⟩)
    = blockX.reversed :: optimize_bucket_go (cexOpts.with_allow_reverse true) 1
        [blockZ] (some ⟨5, 0⟩) := by
  simp only [optimize_bucket_go, c7selT3, List.getD, List.eraseIdx, if_true,
    show blockX.reversed.end_point = ⟨5, 0⟩ from rfl]
  rfl

lemma c7goT4 : optimize_bucket_go (cexOpts.with_allow_reverse true) (0 + 1)
    [blockZ] (some ⟨5, 0⟩) = [blockZ] := by
  simp only [optimize_bucket_go, c7selT4, List.getD, List.eraseIdx,
    Bool.false_eq_true, if_false]
  rfl

lemma c7bucketT : optimize_bucket [blockA, blockX, blockY, blockZ]
    (cexOpts.with_allow_reverse true) none
    = [blockA, blockY.reversed, blockX.reversed, blockZ] := by
  unfold optimize_bucket
  rw [show ([blockA, blockX, blockY, blockZ] : List ShapeStitchBlock).length
    = 3 + 1 from rfl]
  rw [c7goT1, show (3 : Nat) = 2 + 1 from rfl, c7goT2,
    show (2 : Nat) = 1 + 1 from rfl, c7goT3,
    show (1 : Nat) = 0 + 1 from rfl, c7goT4]

lemma c7buckets : cexBlocks.foldl push_into_buckets []
    = [(⟨0, 0, 0, 255⟩, [blockA, blockX, blockY, blockZ])] := rfl

lemma c7optF : optimize_blocks_for_travel cexBlocks cexOpts
    = [blockA, blockX, blockZ, blockY] := by
  unfold optimize_blocks_for_travel
  rw [if_neg (by rw [show cexBlocks.length = 4 from rfl]; norm_num)]
  rw [if_neg (show ¬(cexOpts.sequence_mode = SequenceMode.StrictSequencer) by decide)]
  rw [if_neg (show ¬(cexOpts.preserve_layer_order = true) by decide)]
  rw [if_neg (show ¬(cexOpts.preserve_color_order = false) by decide)]
  rw [c7buckets]
  rw [if_pos (show cexOpts.allow_color_merge = false from rfl)]
  simp only [List.foldl_cons, List.foldl_nil, c7bucketF, List.nil_append]

lemma c7optT : optimize_blocks_for_travel cexBlocks (cexOpts.with_allow_reverse true)
    = [blockA, blockY.reversed, blockX.reversed, blockZ] := by
  unfold optimize_blocks_for_travel
  rw [if_neg (by rw [show cexBlocks.length = 4 from rfl]; norm_num)]
  rw [if_neg (show ¬((cexOpts.with_allow_reverse true).sequence_mode
    = SequenceMode.StrictSequencer) by decide)]
  rw [if_neg (show ¬((cexOpts.with_allow_reverse true).preserve_layer_order
    = true) by decide)]
  rw [if_neg (show ¬((cexOpts.with_allow_reverse true).preserve_color_order
    = false) by decide)]
  rw [c7buckets]
  rw [if_pos (show (cexOpts.with_allow_reverse true).allow_color_merge
    = false from rfl)]
  simp only [List.foldl_cons, List.foldl_nil, c7bucketT, List.nil_append]

lemma c7asmA : assemble_step cexOpts ⟨[], [], none, none, 0⟩ blockA
    = ⟨[⟨-1, 0, ExportStitchType.Normal⟩, ⟨0, 0, ExportStitchType.Normal⟩],
        [⟨0, 0, 0, 255⟩], some ⟨0, 0, 0, 255⟩, some ⟨0, 0⟩, 1⟩ := by
  unfold assemble_step
  simp [blockA, List.headD, List.foldl_cons, List.foldl_nil,
    show ¬(cexOpts.tie_mode = TieMode.ShapeStartEnd) by decide, c7d16]

lemma c7asmFX : assemble_step cexOpts
    ⟨[⟨-1, 0, ExportStitchType.Normal⟩, ⟨0, 0, ExportStitchType.Normal⟩],
      [⟨0, 0, 0, 255⟩], some ⟨0, 0, 0, 255⟩, some ⟨0, 0⟩, 1⟩ blockX
    = ⟨[⟨-1, 0, ExportStitchType.Normal⟩, ⟨0, 0, ExportStitchType.Normal⟩,
        ⟨5, 0, ExportStitchType.Jump⟩, ⟨5, 0, ExportStitchType.Normal⟩,
        ⟨5, 100, ExportStitchType.Normal⟩],
      [⟨0, 0, 0, 255⟩], some ⟨0, 0, 0, 255⟩, some ⟨5, 100⟩, 101⟩ := by
  unfold assemble_step
  have hst : should_insert_trim cexOpts 5 1 = false :=
    should_insert_trim_small _ _ _
      (by rw [show cexOpts.trim_threshold_mm = 1e6 from rfl]; norm_num)
  have hE5 : F64_EPSILON < (5 : ℝ) := by unfold F64_EPSILON; norm_num
  simp [blockX, List.headD, List.foldl_cons, List.foldl_nil,
    show ¬(cexOpts.tie_mode = TieMode.ShapeStartEnd) by decide,
    c7d1, c7d17, c7d18, hE5, hst]
  norm_num

lemma c7asmFZ : assemble_step cexOpts
    ⟨[⟨-1, 0, ExportStitchType.Normal⟩, ⟨0, 0, ExportStitchType.Normal⟩,
        ⟨5, 0, ExportStitchType.Jump⟩, ⟨5, 0, ExportStitchType.Normal⟩,
        ⟨5, 100, ExportStitchType.Normal⟩],
      [⟨0, 0, 0, 255⟩], some ⟨0, 0, 0, 255⟩, some ⟨5, 100⟩, 101⟩ blockZ
    = ⟨[⟨-1, 0, ExportStitchType.Normal⟩, ⟨0, 0, ExportStitchType.Normal⟩,
        ⟨5, 0, ExportStitchType.Jump⟩, ⟨5, 0, ExportStitchType.Normal⟩,
        ⟨5, 100, ExportStitchType.Normal⟩, ⟨5, 101, ExportStitchType.Jump⟩,
        ⟨5, 101, ExportStitchType.Normal⟩, ⟨5, 200, ExportStitchType.Normal⟩],
      [⟨0, 0, 0, 255⟩], some ⟨0, 0, 0, 255⟩, some ⟨5, 200⟩, 200⟩ := by
  unfold assemble_step
  have hst : should_insert_trim cexOpts 1 101 = false :=
    should_insert_trim_small _ _ _
      (by rw [show cexOpts.trim_threshold_mm = 1e6 from rfl]; norm_num)
  have hE1 : F64_EPSILON < (1 : ℝ) := by unfold F64_EPSILON; norm_num
  simp [blockZ, List.headD, List.foldl_cons, List.foldl_nil,
    show ¬(cexOpts.tie_mode = TieMode.ShapeStartEnd) by decide,
    c7d8, c7d19, c7d20, hE1, hst]
  norm_num

lemma c7asmFY : assemble_step cexOpts
    ⟨[⟨-1, 0, ExportStitchType.Normal⟩, ⟨0, 0, ExportStitchType.Normal⟩,
        ⟨5, 0, ExportStitchType.Jump⟩, ⟨5, 0, ExportStitchType.Normal⟩,
        ⟨5, 100, ExportStitchType.Normal⟩, ⟨5, 101, ExportStitchType.Jump⟩,
        ⟨5, 101, ExportStitchType.Normal⟩, ⟨5, 200, ExportStitchType.Normal⟩],
      [⟨0, 0, 0, 255⟩], some ⟨0, 0, 0, 255⟩, some ⟨5, 200⟩, 200⟩ blockY
    = ⟨[⟨-1, 0, ExportStitchType.Normal⟩, ⟨0, 0, ExportStitchType.Normal⟩,
        ⟨5, 0, ExportStitchType.Jump⟩, ⟨5, 0, ExportStitchType.Normal⟩,
        ⟨5, 100, ExportStitchType.Normal⟩, ⟨5, 101, ExportStitchType.Jump⟩,
        ⟨5, 101, ExportStitchType.Normal⟩, ⟨5, 200, ExportStitchType.Normal⟩,
        ⟨100, 100, ExportStitchType.Jump⟩, ⟨100, 100, ExportStitchType.Normal⟩,
        ⟨1, 0, ExportStitchType.Normal⟩],
      [⟨0, 0, 0, 255⟩], some ⟨0, 0, 0, 255⟩, some ⟨1, 0⟩,
      200 + Real.sqrt 19801⟩ := by
  unfold assemble_step
  have hst : should_insert_trim cexOpts (Real.sqrt 19025) 200 = false :=
    should_insert_trim_small _ _ _
      (by rw [show cexOpts.trim_threshold_mm = 1e6 from rfl]
          exact sqrt_lt_num (by norm_num) (by norm_num))
  have hE : F64_EPSILON < Real.sqrt 19025 :=
    lt_trans (by unfold F64_EPSILON; norm_num : F64_EPSILON < (1 : ℝ))
      (num_lt_sqrt (by norm_num) (by norm_num))
  simp [blockY, List.headD, List.foldl_cons, List.foldl_nil,
    show ¬(cexOpts.tie_mode = TieMode.ShapeStartEnd) by decide,
    c7d9, c7d21, c7d22, hE, hst]

lemma c7asmTA : assemble_step (cexOpts.with_allow_reverse true)
    ⟨[], [], none, none, 0⟩ blockA
    = ⟨[⟨-1, 0, ExportStitchType.Normal⟩, ⟨0, 0, ExportStitchType.Normal⟩],
        [⟨0, 0, 0, 255⟩], some ⟨0, 0, 0, 255⟩, some ⟨0, 0⟩, 1⟩ := by
  unfold assemble_step
  simp [blockA, List.headD, List.foldl_cons, List.foldl_nil,
    show ¬((cexOpts.with_allow_reverse true).tie_mode = TieMode.ShapeStartEnd)
      by decide, c7d16]

lemma c7asmTY : assemble_step (cexOpts.with_allow_reverse true)
    ⟨[⟨-1, 0, ExportStitchType.Normal⟩, ⟨0, 0, ExportStitchType.Normal⟩],
      [⟨0, 0, 0, 255⟩], some ⟨0, 0, 0, 255⟩, some ⟨0, 0⟩, 1⟩ blockY.reversed
    = ⟨[⟨-1, 0, ExportStitchType.Normal⟩, ⟨0, 0, ExportStitchType.Normal⟩,
        ⟨1, 0, ExportStitchType.Jump⟩, ⟨1, 0, ExportStitchType.Normal⟩,
        ⟨100, 100, ExportStitchType.Normal⟩],
      [⟨0, 0, 0, 255⟩], some ⟨0, 0, 0, 255⟩, some ⟨100, 100⟩,
      1 + Real.sqrt 19801⟩ := by
  unfold assemble_step
  have hst : should_insert_trim (cexOpts.with_allow_reverse true) 1 1 = false :=
    should_insert_trim_small _ _ _
      (by rw [show (cexOpts.with_allow_reverse true).trim_threshold_mm = 1e6 from rfl]
          norm_num)
  have hE1 : F64_EPSILON < (1 : ℝ) := by unfold F64_EPSILON; norm_num
  simp [blockY, ShapeStitchBlock.reversed, List.headD, List.foldl_cons,
    List.foldl_nil,
    show ¬((cexOpts.with_allow_reverse true).tie_mode = TieMode.ShapeStartEnd)
      by decide, c7d3, c7d23, c7d24, hE1, hst]

lemma c7asmTX : assemble_step (cexOpts.with_allow_reverse true)
    ⟨[⟨-1, 0, ExportStitchType.Normal⟩, ⟨0, 0, ExportStitchType.Normal⟩,
        ⟨1, 0, ExportStitchType.Jump⟩, ⟨1, 0, ExportStitchType.Normal⟩,
        ⟨100, 100, ExportStitchType.Normal⟩],
      [⟨0, 0, 0, 255⟩], some ⟨0, 0, 0, 255⟩, some ⟨100, 100⟩,
      1 + Real.sqrt 19801⟩ blockX.reversed
    = ⟨[⟨-1, 0, ExportStitchType.Normal⟩, ⟨0, 0, ExportStitchType.Normal⟩,
        ⟨1, 0, ExportStitchType.Jump⟩, ⟨1, 0, ExportStitchType.Normal⟩,
        ⟨100, 100, ExportStitchType.Normal⟩, ⟨5, 100, ExportStitchType.Jump⟩,
        ⟨5, 100, ExportStitchType.Normal⟩, ⟨5, 0, ExportStitchType.Normal⟩],
      [⟨0, 0, 0, 255⟩], some ⟨0, 0, 0, 255⟩, some ⟨5, 0⟩,
      1 + Real.sqrt 19801 + 100⟩ := by
  unfold assemble_step
  have hst : should_insert_trim (cexOpts.with_allow_reverse true) 95
      (1 + Real.sqrt 19801) = false :=
    should_insert_trim_small _ _ _
      (by rw [show (cexOpts.with_allow_reverse true).trim_threshold_mm = 1e6 from rfl]
          norm_num)
  have hE95 : F64_EPSILON < (95 : ℝ) := by unfold F64_EPSILON; norm_num
  simp [blockX, ShapeStitchBlock.reversed, List.headD, List.foldl_cons,
    List.foldl_nil,
    show ¬((cexOpts.with_allow_reverse true).tie_mode = TieMode.ShapeStartEnd)
      by decide, c7d11, c7d25, c7d26, hE95, hst]

lemma c7asmTZ : assemble_step (cexOpts.with_allow_reverse true)
    ⟨[⟨-1, 0, ExportStitchType.Normal⟩, ⟨0, 0, ExportStitchType.Normal⟩,
        ⟨1, 0, ExportStitchType.Jump⟩, ⟨1, 0, ExportStitchType.Normal⟩,
        ⟨100, 100, ExportStitchType.Normal⟩, ⟨5, 100, ExportStitchType.Jump⟩,
        ⟨5, 100, ExportStitchType.Normal⟩, ⟨5, 0, ExportStitchType.Normal⟩],
      [⟨0, 0, 0, 255⟩], some ⟨0, 0, 0, 255⟩, some ⟨5, 0⟩,
      1 + Real.sqrt 19801 + 100⟩ blockZ
    = ⟨[⟨-1, 0, ExportStitchType.Normal⟩, ⟨0, 0, ExportStitchType.Normal⟩,
        ⟨1, 0, ExportStitchType.Jump⟩, ⟨1, 0, ExportStitchType.Normal⟩,
        ⟨100, 100, ExportStitchType.Normal⟩, ⟨5, 100, ExportStitchType.Jump⟩,
        ⟨5, 100, ExportStitchType.Normal⟩, ⟨5, 0, ExportStitchType.Normal⟩,
        ⟨5, 101, ExportStitchType.Jump⟩, ⟨5, 101, ExportStitchType.Normal⟩,
        ⟨5, 200, ExportStitchType.Normal⟩],
      [⟨0, 0, 0, 255⟩], some ⟨0, 0, 0, 255⟩, some ⟨5, 200⟩,
      1 + Real.sqrt 19801 + 100 + 99⟩ := by
  unfold assemble_step
  have hst : should_insert_trim (cexOpts.with_allow_reverse true) 101
      (1 + Real.sqrt 19801 + 100) = false :=
    should_insert_trim_small _ _ _
      (by rw [show (cexOpts.with_allow_reverse true).trim_threshold_mm = 1e6 from rfl]
          norm_num)
  have hE101 : F64_EPSILON < (101 : ℝ) := by unfold F64_EPSILON; norm_num
  simp [blockZ, List.headD, List.foldl_cons, List.foldl_nil,
    show ¬((cexOpts.with_allow_reverse true).tie_mode = TieMode.ShapeStartEnd)
      by decide, c7d14, c7d19, c7d20, hE101, hst]

lemma distance_xy_eq (ax ay bx byy : ℝ) :
    distance_xy ax ay bx byy = distance ⟨ax, ay⟩ ⟨bx, byy⟩ := rfl

lemma c7asmF : (assemble_blocks [blockA, blockX, blockZ, blockY] cexOpts).1
    = [⟨-1, 0, ExportStitchType.Normal⟩, ⟨0, 0, ExportStitchType.Normal⟩,
        ⟨5, 0, ExportStitchType.Jump⟩, ⟨5, 0, ExportStitchType.Normal⟩,
        ⟨5, 100, ExportStitchType.Normal⟩, ⟨5, 101, ExportStitchType.Jump⟩,
        ⟨5, 101, ExportStitchType.Normal⟩, ⟨5, 200, ExportStitchType.Normal⟩,
        ⟨100, 100, ExportStitchType.Jump⟩, ⟨100, 100, ExportStitchType.Normal⟩,
        ⟨1, 0, ExportStitchType.Normal⟩, ⟨1, 0, ExportStitchType.End⟩] := by
  unfold assemble_blocks
  rw [List.foldl_cons, c7asmA, List.foldl_cons, c7asmFX, List.foldl_cons, c7asmFZ,
    List.foldl_cons, c7asmFY, List.foldl_nil]
  rfl

lemma c7asmT : (assemble_blocks [blockA, blockY.reversed, blockX.reversed, blockZ]
    (cexOpts.with_allow_reverse true)).1
    = [⟨-1, 0, ExportStitchType.Normal⟩, ⟨0, 0, ExportStitchType.Normal⟩,
        ⟨1, 0, ExportStitchType.Jump⟩, ⟨1, 0, ExportStitchType.Normal⟩,
        ⟨100, 100, ExportStitchType.Normal⟩, ⟨5, 100, ExportStitchType.Jump⟩,
        ⟨5, 100, ExportStitchType.Normal⟩, ⟨5, 0, ExportStitchType.Normal⟩,
        ⟨5, 101, ExportStitchType.Jump⟩, ⟨5, 101, ExportStitchType.Normal⟩,
        ⟨5, 200, ExportStitchType.Normal⟩, ⟨5, 200, ExportStitchType.End⟩] := by
  unfold assemble_blocks
  rw [List.foldl_cons, c7asmTA, List.foldl_cons, c7asmTY, List.foldl_cons, c7asmTX,
    List.foldl_cons, c7asmTZ, List.foldl_nil]
  rfl

/-- Counterexample to C7 as stated: four same-color blocks and min-travel
options differing only in `allow_reverse`.  With `allow_reverse = false` the
greedy order is A, X, Z, Y with travel `5 + 1 + √19025 ≈ 143.9`; with
`allow_reverse = true` the first greedy step grabs the nearby end of block Y
in reverse, and the total travel of the assembled design is `1 + 95 + 101 =
197` — allowing reversal strictly increased the travel distance. -/
theorem optimize_blocks_travel_cex :
    (compute_route_metrics (assemble_blocks
        (optimize_blocks_for_travel cexBlocks cexOpts) cexOpts).1).travel_distance_mm
      < (compute_route_metrics (assemble_blocks
          (optimize_blocks_for_travel cexBlocks (cexOpts.with_allow_reverse true))
          (cexOpts.with_allow_reverse true)).1).travel_distance_mm := by
  rw [c7optF, c7optT, c7asmF, c7asmT]
  unfold compute_route_metrics
  have h : Real.sqrt 19025 < 191 := sqrt_lt_num (by norm_num) (by norm_num)
  simp [List.filterMap_cons, distance_xy_eq, c7d1, c7d8, c7d9,
    c7d3, c7d11, c7d14]
  linarith
